import Mathlib

/-!
Verification development for the entity simulation core of the
`dragon-fight` side-scrolling brawler (C sources: `entities.c`,
`entities.h`, `level.c`, `level.h`, `assets.h`, `main.c`).

The C code is shallowly embedded: `float` values become exact rationals
(`ℚ`), C `int` becomes `Int`, pointers to entities become values passed
and returned explicitly, and the fire-and-forget sound cues become
counters recorded in the result of the embedded function.  Null-pointer
guards in the C code have no counterpart here because entities are passed
by value.  Each embedded definition mirrors one C function (or one
clearly delimited block of a C function, with the original function
recovered as the composition of its blocks, in source order).
-/

namespace DragonFight

/-! ## Basic geometry (raylib `Vector2`, `Rectangle`, `CheckCollisionRecs`) -/

structure Vec2 where
  x : ℚ
  y : ℚ
  deriving Repr, DecidableEq

structure Rect where
  x : ℚ
  y : ℚ
  width : ℚ
  height : ℚ
  deriving Repr, DecidableEq

/-- raylib `CheckCollisionRecs`: strict-overlap test of two axis-aligned
rectangles (stated as a decidable proposition). -/
def CheckCollisionRecs (a b : Rect) : Prop :=
  a.x < b.x + b.width ∧ a.x + a.width > b.x ∧
  a.y < b.y + b.height ∧ a.y + a.height > b.y

instance (a b : Rect) : Decidable (CheckCollisionRecs a b) := by
  unfold CheckCollisionRecs; infer_instance

/-! ## Game constants (`entities.h`, `level.h`) -/

def SCREEN_WIDTH : ℚ := 800
def GROUND_Y : ℚ := 448
def PLAYER_WIDTH : ℚ := 47
def PLAYER_HEIGHT : ℚ := 47
def PLAYER_SPEED : ℚ := 200
def JUMP_VELOCITY : ℚ := -400
def GRAVITY : ℚ := 980
def FRICTION : ℚ := 9/10
def MIN_VELOCITY : ℚ := 5
def KNOCKBACK_FORCE : ℚ := 200
def MAX_ENTITY_SPEED : ℚ := 280
def MAX_KNOCKBACK_SPEED : ℚ := 220
def ATTACK_COOLDOWN : ℚ := 1/2
def ATTACK_DAMAGE : Int := 15
def PUNCH_DAMAGE : Int := 18
def KICK_DAMAGE : Int := 20
def ENEMY_DAMAGE : Int := 10
def ATTACK_EXTEND : ℚ := 20
def HIT_FRAMES_START : Int := 1
def HIT_FRAMES_END : Int := 2
def IDLE_DELAY : ℚ := 1/5
def DEATH_TIME : ℚ := 2
def ATTACK_TIMEOUT : ℚ := 3/2
def PLAYER_STUN_TIME : ℚ := 35/100
def ENEMY_STUN_TIME : ℚ := 45/100
def ENEMY_SIGHT_DIST : ℚ := 200
def ENEMY_ATTACK_RANGE : ℚ := 60
def ENEMY_CHASE_SPEED : ℚ := 120
def ENEMY_RETREAT_SPEED : ℚ := 140
def ENEMY_POSITION_SPEED : ℚ := 80
def ENEMY_EVADE_CHANCE : ℚ := 3/10
def ENEMY_RETREAT_TIME : ℚ := 3/2
def ENEMY_SPEED : ℚ := 100

def AI_STATE_IDLE : Int := 0
def AI_STATE_CHASE : Int := 1
def AI_STATE_ATTACK : Int := 2
def AI_STATE_RETREAT : Int := 3
def AI_STATE_EVADE : Int := 4
def AI_STATE_POSITION : Int := 5

def ANIM_IDLE : Int := 0
def ANIM_WALK : Int := 1
def ANIM_JUMP : Int := 2
def ANIM_JAB : Int := 3
def ANIM_PUNCH : Int := 4
def ANIM_KICK : Int := 5
def ANIM_JUMP_KICK : Int := 6
def ANIM_DIVE_KICK : Int := 7
def ANIM_HURT : Int := 8

def PLAYER_MAX_HEALTH : Int := 100
def ENEMY_MAX_HEALTH : Int := 50
def MAX_ENEMIES : Nat := 10
def TILE_SIZE : ℚ := 16

/-- C `INT_MAX` (32-bit), used by `DamageEntity` when `maxHealth <= 0`. -/
def INT_MAX : Int := 2147483647

/-! ## Entity state (`entities.h`) -/

inductive EntityState where
  | idle
  | move
  | jump
  | attack
  | hurt
  | dead
  | grab
  deriving Repr, DecidableEq

structure Animation where
  currentFrame : Int
  timer : ℚ
  totalFrames : Int
  deriving Repr, DecidableEq

structure Entity where
  position : Vec2
  velocity : Vec2
  anim : Animation
  health : Int
  maxHealth : Int
  currentAnimIndex : Int
  facingRight : Bool
  hitbox : Rect
  isAttacking : Bool
  attackCooldown : ℚ
  attackDamage : Int
  attackTimer : ℚ
  attackHasHit : Bool
  lastAnimIndex : Int
  deathTimer : ℚ
  idleTimer : ℚ
  state : EntityState
  stateTimer : ℚ
  stunTimer : ℚ
  hitFrameStart : Int
  hitFrameEnd : Int
  grounded : Bool
  aiState : Int
  aiTimer : ℚ
  targetPos : Vec2
  wasHurt : Bool
  grabbedEnemyIndex : Int
  deriving Repr, DecidableEq

/-- The all-zero entity produced by `memset(_, 0, sizeof(Entity))`. -/
def zeroEntity : Entity where
  position := ⟨0, 0⟩
  velocity := ⟨0, 0⟩
  anim := ⟨0, 0, 0⟩
  health := 0
  maxHealth := 0
  currentAnimIndex := 0
  facingRight := false
  hitbox := ⟨0, 0, 0, 0⟩
  isAttacking := false
  attackCooldown := 0
  attackDamage := 0
  attackTimer := 0
  attackHasHit := false
  lastAnimIndex := 0
  deathTimer := 0
  idleTimer := 0
  state := .idle
  stateTimer := 0
  stunTimer := 0
  hitFrameStart := 0
  hitFrameEnd := 0
  grounded := false
  aiState := 0
  aiTimer := 0
  targetPos := ⟨0, 0⟩
  wasHurt := false
  grabbedEnemyIndex := 0

instance : Inhabited Entity := ⟨zeroEntity⟩

/-! ## Attack profiles (`entities.c` lines 25-43) -/

structure AttackProfile where
  animIndex : Int
  damage : Int
  cooldown : ℚ
  hitFrameStart : Int
  hitFrameEnd : Int
  deriving Repr, DecidableEq

def PLAYER_ATTACK_JAB_PROFILE : AttackProfile :=
  ⟨ANIM_JAB, ATTACK_DAMAGE, 1/4, 1, 1⟩
def PLAYER_ATTACK_PUNCH_PROFILE : AttackProfile :=
  ⟨ANIM_PUNCH, PUNCH_DAMAGE, 45/100, 1, 2⟩
def PLAYER_ATTACK_KICK_PROFILE : AttackProfile :=
  ⟨ANIM_KICK, KICK_DAMAGE, 6/10, 2, 3⟩
def ENEMY_ATTACK_PUNCH_PROFILE : AttackProfile :=
  ⟨ANIM_PUNCH, ENEMY_DAMAGE, 8/10, 1, 1⟩
def ENEMY_ATTACK_KICK_PROFILE : AttackProfile :=
  ⟨ANIM_KICK, KICK_DAMAGE, 1, 2, 3⟩

/-! ## Utility functions (`entities.c` lines 57-125) -/

def SafeClamp (value minV maxV : Int) : Int :=
  if value < minV then minV
  else if value > maxV then maxV
  else value

def SafeClampFloat (value minV maxV : ℚ) : ℚ :=
  if value < minV then minV
  else if value > maxV then maxV
  else value

def ClampHorizontalSpeed (value : ℚ) : ℚ :=
  SafeClampFloat value (-MAX_ENTITY_SPEED) MAX_ENTITY_SPEED

/-- `ComputeAttackHitbox` (`entities.c` lines 90-117): derives the attack
hitbox from the attacker's hitbox, extended forward in the facing
direction. -/
def ComputeAttackHitbox (attacker : Entity) : Rect :=
  let base := attacker.hitbox
  let baseWidth := base.width
  let reach := baseWidth + ATTACK_EXTEND
  let result : Rect :=
    { base with
      width := reach
      height := base.height * (115/100)
      y := base.y - base.height * (75/1000) }
  if attacker.facingRight then
    { result with x := result.x + baseWidth * (35/100) }
  else
    { result with x := result.x - (reach - baseWidth * (35/100)) }

/-- `ApplyKnockback` (`entities.c` lines 119-125). -/
def ApplyKnockback (target : Entity) (direction : ℚ) : Entity :=
  let desired := direction * KNOCKBACK_FORCE
  { target with velocity :=
      { target.velocity with
        x := SafeClampFloat desired (-MAX_KNOCKBACK_SPEED) MAX_KNOCKBACK_SPEED } }

/-! ## Combat resolution: `DamageEntity` (`entities.c` lines 1705-1771)

The fire-and-forget death cue (`PlaySound(gameSounds.deathSound)`) is
recorded as the counter `deathCues` in the result. -/

structure DamageResult where
  target : Entity
  deathCues : Nat
  deriving Repr, DecidableEq

/-- `DamageEntity` phase 1 (`entities.c` lines 1713-1722): clamp health
down by `dmg` and cancel the target's in-flight attack. -/
def damageApplyHealth (target : Entity) (dmg : Int) : Entity :=
  { target with
    health := SafeClamp (target.health - dmg) 0
      (if target.maxHealth > 0 then target.maxHealth else INT_MAX),
    isAttacking := false,
    attackDamage := 0,
    attackTimer := 0,
    attackHasHit := false }

/-- `DamageEntity` phase 2 (`entities.c` lines 1723-1738): recovery
cooldown, default hit window, forced hurt animation and Hurt state. -/
def damageSetRecovery (t1 : Entity) (isPlayerAttacker : Bool) : Entity :=
  let recoveryCooldown :=
    if isPlayerAttacker then
      max ENEMY_ATTACK_PUNCH_PROFILE.cooldown ATTACK_COOLDOWN
    else ATTACK_COOLDOWN
  { t1 with
    attackCooldown := max t1.attackCooldown recoveryCooldown,
    idleTimer := 0,
    hitFrameStart := HIT_FRAMES_START,
    hitFrameEnd := HIT_FRAMES_END,
    currentAnimIndex := ANIM_HURT,
    lastAnimIndex := -1,
    state := EntityState.hurt,
    stateTimer := 0 }

/-- `DamageEntity` phase 3 (`entities.c` lines 1740-1755): knockback away
from the attacker, then the attacker-kind-dependent stun / retreat
disposition. -/
def damageKnockbackStun (t2 attacker : Entity) (isPlayerAttacker : Bool) :
    Entity :=
  let direction : ℚ := if t2.position.x > attacker.position.x then 1 else -1
  let t3 := ApplyKnockback t2 direction
  if isPlayerAttacker then
    { t3 with
      aiState := AI_STATE_RETREAT
      aiTimer := ENEMY_RETREAT_TIME
      wasHurt := true
      stunTimer := ENEMY_STUN_TIME }
  else
    { t3 with stunTimer := PLAYER_STUN_TIME }

/-- `DamageEntity` phase 4 (`entities.c` lines 1757-1765): start the death
timer if health is depleted and the timer has not been started. -/
def damageTriggerDeath (t4 : Entity) : Entity :=
  if t4.health ≤ 0 ∧ t4.deathTimer = 0 then
    { t4 with
      deathTimer := DEATH_TIME
      state := EntityState.dead
      stunTimer := 0
      velocity := { t4.velocity with y := 0 }
      grounded := true }
  else t4

def DamageEntity (target attacker : Entity) (dmg : Int)
    (isPlayerAttacker : Bool) : DamageResult :=
  if dmg ≤ 0 then ⟨target, 0⟩
  else
    let t5 := damageTriggerDeath
      (damageKnockbackStun (damageSetRecovery (damageApplyHealth target dmg)
        isPlayerAttacker) attacker isPlayerAttacker)
    let cues : Nat := if t5.health ≤ 0 ∧ t5.deathTimer = 0 then 1 else 0
    ⟨t5, cues⟩

/-! ## Levels and the physics resolver
(`level.h`, `level.c` accessors, and `UpdatePhysics` in `entities.c`
lines 238-438)

The C tile map is an `int` array indexed by `ty * cols + tx`; it is
modelled as a total function from the computed index to the tile id. -/

structure Level where
  hasTileMap : Bool
  height : Int
  tileMap : Int → Int
  tilesPerRow : Int
  width : Int
  colliders : List Rect

/-- `LevelTileColumns` (`level.c` lines 210-218). -/
def LevelTileColumns (l : Level) : Int :=
  if ¬l.hasTileMap ∨ l.tilesPerRow ≤ 0 then 0 else l.tilesPerRow

/-- `LevelRowCount` (`level.c` lines 220-228). -/
def LevelRowCount (l : Level) : Int :=
  if ¬l.hasTileMap ∨ l.height ≤ 0 then 0 else l.height

/-- `currentLevel.tileMap != NULL && currentLevel.height > 0`
(`entities.c` lines 257-258). -/
def levelHasTileMap (l : Level) : Prop := l.hasTileMap = true ∧ 0 < l.height

instance (l : Level) : Decidable (levelHasTileMap l) := by
  unfold levelHasTileMap; infer_instance

/-- `levelCols` in `UpdatePhysics` (`entities.c` line 259). -/
def physCols (l : Level) : Int :=
  if levelHasTileMap l then LevelTileColumns l else 0

/-- `levelRows` in `UpdatePhysics` (`entities.c` line 260). -/
def physRows (l : Level) : Int :=
  if levelHasTileMap l then LevelRowCount l else 0

/-- C float-to-int cast: truncation toward zero. -/
def truncToInt (q : ℚ) : Int := if 0 ≤ q then ⌊q⌋ else -⌊-q⌋

/-- The integers `a, a+1, ..., b-1` (a C `for` loop range). -/
def intRange (a b : Int) : List Int :=
  (List.range (b - a).toNat).map (fun k => a + (k : Int))

/-- Row-major iteration over the scan window: `ty` is the outer loop,
`tx` the inner one; pairs are `(tx, ty)`. -/
def scanPairs (tys txs : List Int) : List (Int × Int) :=
  tys.flatMap (fun ty => txs.map (fun tx => (tx, ty)))

/-- First element satisfying a decidable predicate (the `break`-on-first-
hit pattern of the collision loops). -/
def firstSat {α : Type} (p : α → Prop) [DecidablePred p] :
    List α → Option α
  | [] => none
  | x :: xs => if p x then some x else firstSat p xs

/-- World rectangle of tile `(tx, ty)`. -/
def tileRect (tx ty : Int) : Rect :=
  ⟨tx * TILE_SIZE, ty * TILE_SIZE, TILE_SIZE, TILE_SIZE⟩

/-- `currentLevel.tileMap[ty * levelCols + tx]`. -/
def tileAt (l : Level) (cols ty tx : Int) : Int := l.tileMap (ty * cols + tx)

/-- A scanned cell stops the loop when its tile id is positive and the
swept hitbox intersects its rectangle. -/
def solidTileHit (l : Level) (cols : Int) (box : Rect) (p : Int × Int) :
    Prop :=
  0 < tileAt l cols p.2 p.1 ∧ CheckCollisionRecs box (tileRect p.1 p.2)

instance (l : Level) (cols : Int) (box : Rect) (p : Int × Int) :
    Decidable (solidTileHit l cols box p) := by
  unfold solidTileHit; infer_instance

/-- Horizontal-pass tile scan (`entities.c` lines 270-312): scan window
from the before/after x extent and the current y extent, first hit wins. -/
def horizTileHit (l : Level) (px py w h new_x : ℚ) : Option (Int × Int) :=
  if levelHasTileMap l ∧ 0 < physCols l ∧ 0 < physRows l then
    let cols := physCols l
    let rows := physRows l
    let min_tx := SafeClamp (truncToInt (min px new_x / TILE_SIZE)) 0 (cols - 1)
    let max_tx := SafeClamp
      (truncToInt (max (px + w) (new_x + w) / TILE_SIZE) + 1) 0 cols
    let min_ty := SafeClamp (truncToInt (py / TILE_SIZE)) 0 (rows - 1)
    let max_ty := SafeClamp (truncToInt ((py + h) / TILE_SIZE) + 1) 0 rows
    firstSat (solidTileHit l cols ⟨new_x, py, w, h⟩)
      (scanPairs (intRange min_ty max_ty) (intRange min_tx max_tx))
  else none

/-- Vertical-pass tile scan (`entities.c` lines 353-397). -/
def vertTileHit (l : Level) (px py w h new_y : ℚ) : Option (Int × Int) :=
  if levelHasTileMap l ∧ 0 < physCols l ∧ 0 < physRows l then
    let cols := physCols l
    let rows := physRows l
    let min_tx := SafeClamp (truncToInt (px / TILE_SIZE)) 0 (cols - 1)
    let max_tx := SafeClamp (truncToInt ((px + w) / TILE_SIZE) + 1) 0 cols
    let min_ty := SafeClamp (truncToInt (min py new_y / TILE_SIZE)) 0 (rows - 1)
    let max_ty := SafeClamp
      (truncToInt (max (py + h) (new_y + h) / TILE_SIZE) + 1) 0 rows
    firstSat (solidTileHit l cols ⟨px, new_y, w, h⟩)
      (scanPairs (intRange min_ty max_ty) (intRange min_tx max_tx))
  else none

/-- Horizontal snap against a tile hit (`entities.c` lines 299-306): move
flush left of the tile when travelling right, flush right of it when
travelling left; a zero-delta collision moves nothing. -/
def snapH (x delta_x w : ℚ) : Option (Int × Int) → ℚ
  | some (tx, _) =>
    if 0 < delta_x then tx * TILE_SIZE - w
    else if delta_x < 0 then (tx + 1) * TILE_SIZE
    else x
  | none => x

/-- Horizontal snap against a static collider (`entities.c` 318-328). -/
def snapHCol (x delta_x w : ℚ) : Option Rect → ℚ
  | some c =>
    if 0 < delta_x then c.x - w
    else if delta_x < 0 then c.x + c.width
    else x
  | none => x

/-- Vertical snap against a tile hit (`entities.c` lines 380-394):
`delta_y >= 0` lands on top of the tile, otherwise the head is pushed
below the tile. -/
def snapV (y delta_y h : ℚ) : Option (Int × Int) → ℚ
  | some (_, ty) =>
    if 0 ≤ delta_y then ty * TILE_SIZE - h else (ty + 1) * TILE_SIZE
  | none => y

/-- Vertical snap against a static collider (`entities.c` 403-417). -/
def snapVCol (y delta_y h : ℚ) : Option Rect → ℚ
  | some c => if 0 ≤ delta_y then c.y - h else c.y + c.height
  | none => y

/-- Grounded flag update on a vertical hit: only a downward resolution
grounds the actor. -/
def groundedV {α : Type} (g : Bool) (delta_y : ℚ) : Option α → Bool
  | some _ => if 0 ≤ delta_y then true else g
  | none => g

/-- Velocity component zeroed when a hit was found. -/
def zeroIfSome {α : Type} (v : ℚ) : Option α → ℚ
  | some _ => 0
  | none => v

structure HorizResult where
  newX : ℚ
  collided : Bool
  tile : Option (Int × Int)
  collider : Option Rect

/-- Horizontal movement pass of `UpdatePhysics` (`entities.c` lines
262-339).  Note the collider loop tests the swept hitbox built from the
unsnapped `new_x` (the C code does not rebuild `temp_hitbox` after a tile
snap), and its snap overrides the tile snap. -/
def horizPass (l : Level) (e : Entity) (w h dt : ℚ) : HorizResult :=
  let delta_x := e.velocity.x * dt
  let new_x := e.position.x + delta_x
  let temp : Rect := ⟨new_x, e.position.y, w, h⟩
  let tileHit := horizTileHit l e.position.x e.position.y w h new_x
  let colHit := firstSat (fun c => CheckCollisionRecs temp c) l.colliders
  { newX := snapHCol (snapH new_x delta_x w tileHit) delta_x w colHit
    collided := tileHit.isSome || colHit.isSome
    tile := tileHit
    collider := colHit }

structure VertResult where
  newY : ℚ
  velY : ℚ
  grounded : Bool
  tile : Option (Int × Int)
  collider : Option Rect

/-- Vertical movement pass of `UpdatePhysics` (`entities.c` lines
341-420): gravity unless grounded, then the same sweep/snap logic. -/
def vertPass (l : Level) (e : Entity) (w h dt : ℚ) : VertResult :=
  let velY := if e.grounded then e.velocity.y
              else e.velocity.y + GRAVITY * dt
  let delta_y := velY * dt
  let new_y := e.position.y + delta_y
  let temp : Rect := ⟨e.position.x, new_y, w, h⟩
  let tileHit := vertTileHit l e.position.x e.position.y w h new_y
  let colHit := firstSat (fun c => CheckCollisionRecs temp c) l.colliders
  { newY := snapVCol (snapV new_y delta_y h tileHit) delta_y h colHit
    velY := zeroIfSome (zeroIfSome velY tileHit) colHit
    grounded := groundedV (groundedV e.grounded delta_y tileHit) delta_y colHit
    tile := tileHit
    collider := colHit }

/-- Boss entities (`maxHealth > ENEMY_MAX_HEALTH`) are size-scaled 1.5x
(`entities.c` lines 246-253). -/
def entityScale (e : Entity) : ℚ :=
  if e.maxHealth > ENEMY_MAX_HEALTH then 3/2 else 1

/-- `e->grounded = false` at the start of the tick (`entities.c` 255). -/
def physGravityReset (e : Entity) : Entity := { e with grounded := false }

/-- `e->position.x = new_x; if (horiz_collided) e->velocity.x = 0`
(`entities.c` 335-339). -/
def applyHoriz (e : Entity) (r : HorizResult) : Entity :=
  { e with
    position := { e.position with x := r.newX }
    velocity := if r.collided then { e.velocity with x := 0 } else e.velocity }

/-- Commit the vertical pass (`entities.c` 344, 392, 416, 422). -/
def applyVert (e : Entity) (r : VertResult) : Entity :=
  { e with
    position := { e.position with y := r.newY }
    velocity := { e.velocity with y := r.velY }
    grounded := r.grounded }

/-- `stage_width - entity_width` floored at zero (`entities.c` 424-430). -/
def worldMaxX (l : Level) (w : ℚ) : ℚ :=
  let sw : ℚ := if 0 < l.width then (l.width : ℚ) else SCREEN_WIDTH
  if sw - w < 0 then 0 else sw - w

/-- World-bounds clamp (`entities.c` 431-432). -/
def clampWorld (l : Level) (e : Entity) (w : ℚ) : Entity :=
  { e with position := ⟨SafeClampFloat e.position.x 0 (worldMaxX l w),
                        SafeClampFloat e.position.y 0 GROUND_Y⟩ }

/-- Final hitbox recomputation (`entities.c` 434-437): the scaled hitbox
is centered over the nominal footprint. -/
def setHitbox (e : Entity) (w h : ℚ) : Entity :=
  { e with hitbox := ⟨e.position.x + (w - PLAYER_WIDTH) / 2,
                      e.position.y + (h - PLAYER_HEIGHT) / 2, w, h⟩ }

structure PhysicsResult where
  entity : Entity
  hTile : Option (Int × Int)
  vTile : Option (Int × Int)
  hCollider : Option Rect
  vCollider : Option Rect

/-- `UpdatePhysics` (`entities.c` lines 238-438).  Besides the updated
entity, the result records which tile / static collider each pass
resolved against (the branch the C code took). -/
def UpdatePhysics (l : Level) (e : Entity) (dt : ℚ) : PhysicsResult :=
  let w := PLAYER_WIDTH * entityScale e
  let h := PLAYER_HEIGHT * entityScale e
  let e0 := physGravityReset e
  let hres := horizPass l e0 w h dt
  let e1 := applyHoriz e0 hres
  let vres := vertPass l e1 w h dt
  let e2 := applyVert e1 vres
  let e3 := clampWorld l e2 w
  let e4 := setHitbox e3 w h
  ⟨e4, hres.tile, vres.tile, hres.collider, vres.collider⟩

/-! ## Hit-window gating and hit scans
(`entities.c` lines 880-911 inside `ProcessPlayerInput`, and
`ProcessEnemyAttack` lines 1401-1444) -/

/-- A target is hit when it is alive and its hitbox intersects the attack
hitbox (the guard of both hit-scan loops). -/
def hitCandidate (attackHit : Rect) (e : Entity) : Prop :=
  e.health > 0 ∧ CheckCollisionRecs attackHit e.hitbox

instance (attackHit : Rect) (e : Entity) : Decidable (hitCandidate attackHit e) := by
  unfold hitCandidate; infer_instance

/-- The first-hit-wins scan over the opposing actors: the first candidate
is damaged (via `DamageEntity`) and the loop breaks.  `isPlayerAttacker`
is `true` for the player-vs-enemies loop and `false` for the
enemy-vs-players loop.  Returns the updated list and whether a hit
landed. -/
def hitScan (attackHit : Rect) (attacker : Entity) (dmg : Int)
    (isPlayerAttacker : Bool) : List Entity → List Entity × Bool
  | [] => ([], false)
  | e :: es =>
    if hitCandidate attackHit e then
      ((DamageEntity e attacker dmg isPlayerAttacker).target :: es, true)
    else
      let r := hitScan attackHit attacker dmg isPlayerAttacker es
      (e :: r.1, r.2)

/-- Clamped start of the hit window (`entities.c` lines 885-887 and
1421-1422; identical formula in both drivers). -/
def clampedHitStart (e : Entity) : Int :=
  SafeClamp (if e.hitFrameStart > 0 then e.hitFrameStart else HIT_FRAMES_START)
    0 (e.anim.totalFrames - 1)

/-- Clamped end of the hit window (`entities.c` lines 888-890 and
1423-1424). -/
def clampedHitEnd (e : Entity) : Int :=
  SafeClamp (if e.hitFrameEnd > 0 then e.hitFrameEnd else HIT_FRAMES_END)
    (clampedHitStart e) (e.anim.totalFrames - 1)

/-- The player attack hit-detection block (`entities.c` lines 880-911):
gated on `isAttacking && !attackHasHit && attackDamage > 0 &&
anim.totalFrames > 0` and the clamped frame window, then first-hit scan
over the enemy registry. -/
def processPlayerHitDetection (p : Entity) (enemies : List Entity) :
    Entity × List Entity :=
  if p.isAttacking ∧ ¬p.attackHasHit ∧ p.attackDamage > 0 ∧
      p.anim.totalFrames > 0 then
    if p.anim.currentFrame < clampedHitStart p ∨
        p.anim.currentFrame > clampedHitEnd p then
      (p, enemies)
    else
      let r := hitScan (ComputeAttackHitbox p) p p.attackDamage true enemies
      (if r.2 then { p with attackHasHit := true } else p, r.1)
  else (p, enemies)

/-- `ProcessEnemyAttack` (`entities.c` lines 1401-1444): the enemy attack
hit-detection pass over the players.  `enemyPunchFrames` is the asset
layer's frame count for the enemy punch clip (used by the defensive
`totalFrames` repair at lines 1414-1418). -/
def ProcessEnemyAttack (e : Entity) (players : List Entity)
    (enemyPunchFrames : Int) : Entity × List Entity :=
  if ¬e.isAttacking ∨ e.attackHasHit ∨ e.attackDamage ≤ 0 then (e, players)
  else
    let e1 :=
      if e.anim.totalFrames ≤ 0 then
        { e with anim := { e.anim with
          totalFrames := if enemyPunchFrames > 0 then enemyPunchFrames else 1 } }
      else e
    if e1.anim.currentFrame < clampedHitStart e1 ∨
        e1.anim.currentFrame > clampedHitEnd e1 then
      (e1, players)
    else
      let r := hitScan (ComputeAttackHitbox e1) e1 e1.attackDamage false players
      (if r.2 then { e1 with attackHasHit := true } else e1, r.1)

/-- Sets the attacker's current animation frame: models the animation
sequencer advancing the frame between two hit-detection passes of the
same swing. -/
def withFrame (p : Entity) (f : Int) : Entity :=
  { p with anim := { p.anim with currentFrame := f } }

/-- A whole player swing: one hit-detection pass per frame of the list. -/
def runPlayerSwing (p : Entity) (fs : List Int) (enemies : List Entity) :
    Entity × List Entity :=
  fs.foldl (fun st f => processPlayerHitDetection (withFrame st.1 f) st.2)
    (p, enemies)

/-- A whole enemy swing: one `ProcessEnemyAttack` pass per frame. -/
def runEnemySwing (e : Entity) (fs : List Int) (players : List Entity)
    (enemyPunchFrames : Int) : Entity × List Entity :=
  fs.foldl (fun st f => ProcessEnemyAttack (withFrame st.1 f) st.2
    enemyPunchFrames) (e, players)

/-! ## The enemy registry
(`entities.c`: `enemies[MAX_ENEMIES]`, `activeEnemies`, `ClearEnemies`,
`InitEnemy`, `RemoveDeadEnemy`, `GetAliveEnemiesCount`; `level.c`
spawn sites)

The backing C array is zero-initialized and slots are populated by
`InitEnemy`; a slot is modelled as `Option Entity` (`none` = never
initialized).  Slots at indices `>= activeEnemies` may hold stale copies
left behind by swap-removal, exactly as in the C array. -/

structure Registry where
  slots : List (Option Entity)
  activeEnemies : Nat
  deriving Repr, DecidableEq

/-- `ClearEnemies` (`entities.c` lines 18-23). -/
def ClearEnemies : Registry := ⟨List.replicate MAX_ENEMIES none, 0⟩

/-- `enemies[i]`: reading a slot; a never-written slot reads as the
zeroed entity (the array is statically zero-initialized). -/
def regGet (r : Registry) (i : Nat) : Entity :=
  (r.slots.getD i none).getD zeroEntity

/-- `InitEnemy` (`entities.c` lines 525-562).  `idleFrames` is the asset
layer's frame count for the enemy idle clip. -/
def InitEnemy (startPos : Vec2) (idleFrames : Int) : Entity :=
  { zeroEntity with
    position := startPos
    velocity := ⟨0, 0⟩
    anim := ⟨0, 0, idleFrames⟩
    health := ENEMY_MAX_HEALTH
    maxHealth := ENEMY_MAX_HEALTH
    currentAnimIndex := ANIM_IDLE
    facingRight := false
    hitbox := ⟨startPos.x, startPos.y, PLAYER_WIDTH, PLAYER_HEIGHT⟩
    lastAnimIndex := -1
    aiState := AI_STATE_IDLE
    aiTimer := 0
    targetPos := startPos
    wasHurt := false
    attackDamage := 0
    attackTimer := 0
    attackHasHit := false
    state := EntityState.idle
    stateTimer := 0
    stunTimer := 0
    hitFrameStart := HIT_FRAMES_START
    hitFrameEnd := HIT_FRAMES_END
    grounded := true }

/-- `RemoveDeadEnemy` (`entities.c` lines 1450-1472): bounds-checked
swap-with-last removal.  The returned flag is `removedBoss` (its
`bossSpawned`/`bossDefeated` bookkeeping lives in the level state). -/
def RemoveDeadEnemy (r : Registry) (index : Int) : Registry × Bool :=
  if index < 0 ∨ index ≥ (r.activeEnemies : Int) then (r, false)
  else
    let i := index.toNat
    let removedBoss := (regGet r i).maxHealth > ENEMY_MAX_HEALTH
    let slots1 :=
      if i < r.activeEnemies - 1 then
        r.slots.set i (r.slots.getD (r.activeEnemies - 1) none)
      else r.slots
    (⟨slots1, r.activeEnemies - 1⟩, removedBoss)

/-- One per-tick spawn from `UpdateLevel` (`level.c` lines 614-636),
reduced to its registry effect: the quota/timer conditions gate whether
the op is issued at all, while the capacity guards are re-checked here as
in the source. -/
def spawnTick (r : Registry) (maxConcurrent : Nat) (pos : Vec2)
    (idleFrames : Int) : Registry :=
  if r.activeEnemies < maxConcurrent ∧ r.activeEnemies < MAX_ENEMIES then
    ⟨r.slots.set r.activeEnemies (some (InitEnemy pos idleFrames)),
     r.activeEnemies + 1⟩
  else r

/-- One initial-wave spawn from `SpawnInitialWave` (`level.c` lines
474-495): guarded only by the capacity bound. -/
def spawnWaveOne (r : Registry) (pos : Vec2) (idleFrames : Int) : Registry :=
  if r.activeEnemies < MAX_ENEMIES then
    ⟨r.slots.set r.activeEnemies (some (InitEnemy pos idleFrames)),
     r.activeEnemies + 1⟩
  else r

/-- Boss spawn from `UpdateLevel` (`level.c` lines 643-670): the spawned
enemy's health and capacity are overridden with the stage's boss
health. -/
def spawnBoss (r : Registry) (pos : Vec2) (idleFrames bossHealth : Int) :
    Registry :=
  if r.activeEnemies < MAX_ENEMIES then
    ⟨r.slots.set r.activeEnemies
      (some { InitEnemy pos idleFrames with
              health := bossHealth, maxHealth := bossHealth }),
     r.activeEnemies + 1⟩
  else r

/-- The registry operations issued by the level director and the death
sweep. -/
inductive RegOp where
  | clear
  | tick (maxConcurrent : Nat) (pos : Vec2) (idleFrames : Int)
  | wave (pos : Vec2) (idleFrames : Int)
  | boss (pos : Vec2) (idleFrames bossHealth : Int)
  | remove (index : Int)

def applyRegOp (r : Registry) : RegOp → Registry
  | .clear => ClearEnemies
  | .tick mc pos fr => spawnTick r mc pos fr
  | .wave pos fr => spawnWaveOne r pos fr
  | .boss pos fr hp => spawnBoss r pos fr hp
  | .remove i => (RemoveDeadEnemy r i).1

/-- The registry invariant of the spec: bounded occupancy and a dense
initialized prefix. -/
def RegInv (r : Registry) : Prop :=
  r.activeEnemies ≤ MAX_ENEMIES ∧ r.slots.length = MAX_ENEMIES ∧
  ∀ j, j < r.activeEnemies → (r.slots.getD j none).isSome

/-- `GetAliveEnemiesCount` (`entities.c` lines 1661-1673): loop over the
active prefix counting entries with positive health and no running death
timer. -/
def GetAliveEnemiesCount (r : Registry) : Int :=
  (List.range r.activeEnemies).foldl
    (fun alive j =>
      if 0 < (regGet r j).health ∧ (regGet r j).deathTimer ≤ 0 then alive + 1
      else alive) 0

/-- The level-progress flags read by `LevelIsCleared` (`level.c`
globals). -/
structure LevelFlags where
  stageHasBoss : Bool
  bossSpawned : Bool
  bossDefeated : Bool
  enemiesRemainingToSpawn : Int
  deriving Repr, DecidableEq

/-- `LevelHasActiveBoss` (`level.c` lines 246-250). -/
def LevelHasActiveBoss (f : LevelFlags) : Prop :=
  f.stageHasBoss ∧ f.bossSpawned ∧ ¬f.bossDefeated

instance (f : LevelFlags) : Decidable (LevelHasActiveBoss f) := by
  unfold LevelHasActiveBoss; infer_instance

/-- `LevelIsCleared` (`level.c` lines 260-271). -/
def LevelIsCleared (f : LevelFlags) (r : Registry) : Prop :=
  (f.stageHasBoss → f.bossDefeated) ∧
  f.enemiesRemainingToSpawn ≤ 0 ∧ GetAliveEnemiesCount r = 0 ∧
  ¬ LevelHasActiveBoss f

instance (f : LevelFlags) (r : Registry) : Decidable (LevelIsCleared f r) := by
  unfold LevelIsCleared; infer_instance

/-- The grab-reference maintenance block at the end of `UpdatePlayer`
(`entities.c` lines 1080-1100): revalidate the weak index, re-snap the
held enemy, or silently release a stale grab. -/
def grabRefresh (p : Entity) (r : Registry) : Entity × Registry :=
  if p.grabbedEnemyIndex ≠ -1 then
    let idx := p.grabbedEnemyIndex
    if 0 ≤ idx ∧ idx < (r.activeEnemies : Int) ∧
        0 < (regGet r idx.toNat).health then
      let en := regGet r idx.toNat
      let offsetX : ℚ := if p.facingRight then 40 else -40
      let en2 := { en with
        position := ⟨p.position.x + offsetX, p.position.y⟩
        velocity := ⟨0, 0⟩
        grounded := p.grounded
        aiState := AI_STATE_IDLE
        isAttacking := false }
      ({ p with velocity := { p.velocity with x := p.velocity.x * (1/2) } },
       ⟨r.slots.set idx.toNat (some en2), r.activeEnemies⟩)
    else
      ({ p with grabbedEnemyIndex := -1, state := EntityState.idle }, r)
  else (p, r)

/-! ## Sample concrete actors used by concrete evaluations -/

/-- A concrete 9x9 level: one solid wall tile at cell (8, 4) and a solid
ground strip at row 8, columns 3-8; no static colliders. -/
def cexLevel : Level where
  hasTileMap := true
  height := 9
  tileMap := fun idx => if idx = 44 ∨ (75 ≤ idx ∧ idx ≤ 80) then 1 else 0
  tilesPerRow := 9
  width := 2000
  colliders := []

/-- A concrete boss-scaled actor (maxHealth 160 > ENEMY_MAX_HEALTH)
moving right and down toward the wall tile of `cexLevel`. -/
def cexBoss : Entity :=
  { zeroEntity with
    maxHealth := 160
    health := 160
    position := ⟨55, 60⟩
    velocity := ⟨100, 2⟩ }

/-- Witness level for the amended non-penetration theorem: solid wall
tile at cell (8, 6) and a ground strip at row 8, columns 3-8. -/
def witLevel : Level where
  hasTileMap := true
  height := 9
  tileMap := fun idx => if idx = 62 ∨ (75 ≤ idx ∧ idx ≤ 80) then 1 else 0
  tilesPerRow := 9
  width := 2000
  colliders := []

/-- Witness actor: standard-size enemy walking right and falling. -/
def witActor : Entity :=
  { zeroEntity with
    maxHealth := 50
    health := 50
    position := ⟨85, 85⟩
    velocity := ⟨100, 2⟩ }

/-- A concrete mid-swing attacker: jab-like profile, frame 1 of 3,
window frames 1-2, facing right. -/
def sampleAttacker : Entity :=
  { zeroEntity with
    isAttacking := true
    attackDamage := 15
    anim := ⟨1, 0, 3⟩
    hitFrameStart := 1
    hitFrameEnd := 2
    facingRight := true
    position := ⟨50, 401⟩
    hitbox := ⟨50, 401, 47, 47⟩
    health := 100
    maxHealth := 100 }

/-- A concrete living defender standing inside the attacker's reach. -/
def sampleDefender : Entity :=
  { zeroEntity with
    health := 50
    maxHealth := 50
    position := ⟨100, 401⟩
    hitbox := ⟨100, 401, 47, 47⟩ }

/-- A standard enemy at 10 health (the spec scenario "enemy health driven
from 10 to 0 by a single hit of 15 damage"). -/
def sampleEnemy10 : Entity :=
  { zeroEntity with health := 10, maxHealth := 50, position := ⟨100, 401⟩ }

/-- A healthy standard enemy. -/
def sampleEnemy : Entity :=
  { zeroEntity with health := 50, maxHealth := 50, position := ⟨100, 401⟩ }

/-- A healthy player standing left of the sample enemies. -/
def samplePlayer : Entity :=
  { zeroEntity with
    health := 100
    maxHealth := 100
    position := ⟨50, 401⟩
    grabbedEnemyIndex := -1 }

/-- A dying enemy: zero health, death timer running. -/
def dyingEnemy : Entity := { sampleEnemy with health := 0, deathTimer := 6/5 }

/-- A second, living enemy at a distinct position. -/
def secondEnemy : Entity := { sampleEnemy with position := ⟨300, 401⟩ }

/-- A registry holding the dying enemy in slot 0 and a living enemy in
slot 1. -/
def twoEnemyReg : Registry :=
  ⟨[some dyingEnemy, some secondEnemy, none, none, none, none, none, none,
    none, none], 2⟩

/-- A registry holding only the dying enemy. -/
def dyingReg : Registry :=
  ⟨[some dyingEnemy, none, none, none, none, none, none, none, none, none], 1⟩

/-- A player holding a grab reference to registry slot 0. -/
def grabbingPlayer : Entity :=
  { samplePlayer with grabbedEnemyIndex := 0, state := EntityState.grab }

/-! ## Enemy AI (`ProcessEnemyAI`, `entities.c` lines 1185-1394)

The two `rand()` draws of one call are modelled as the input parameters
`profileRoll` (profile choice, compared against 0.3) and `evadeRoll`
(evade chance), each standing for `(float)rand() / RAND_MAX`. -/

structure AIParams where
  sightDist : ℚ
  attackRange : ℚ
  chaseSpeed : ℚ
  positionSpeed : ℚ
  retreatSpeed : ℚ
  deriving Repr, DecidableEq

/-- Boss tuning block (`entities.c` lines 1227-1241): keyed on the
CURRENT health exceeding `ENEMY_MAX_HEALTH` (not the capacity). -/
def enemyAIParams (e : Entity) : AIParams :=
  if e.health > ENEMY_MAX_HEALTH then
    ⟨ENEMY_SIGHT_DIST * (12/10), ENEMY_ATTACK_RANGE * (3/2),
     ENEMY_CHASE_SPEED * (7/10), ENEMY_POSITION_SPEED * (7/10),
     ENEMY_RETREAT_SPEED * (8/10)⟩
  else
    ⟨ENEMY_SIGHT_DIST, ENEMY_ATTACK_RANGE, ENEMY_CHASE_SPEED,
     ENEMY_POSITION_SPEED, ENEMY_RETREAT_SPEED⟩

/-- One iteration of the target-selection loop (`entities.c` lines
1203-1212): skip dead players, keep the strictly closest one so far. -/
def selectTargetStep (e : Entity) (acc : Option Entity × ℚ) (p : Entity) :
    Option Entity × ℚ :=
  if p.health ≤ 0 then acc
  else
    let dist := |p.position.x - e.position.x|
    if dist < acc.2 then (some p, dist) else acc

/-- Target selection (`entities.c` lines 1199-1212): closest living
player by horizontal distance, starting from the threshold
`ENEMY_SIGHT_DIST + 1` (the boss's enlarged sight range plays no role
here). -/
def selectTarget (e : Entity) (players : List Entity) :
    Option Entity × ℚ :=
  players.foldl (selectTargetStep e) (none, ENEMY_SIGHT_DIST + 1)

/-- `StartEnemyAttack` (`entities.c` lines 1148-1177); the attack sound
cue is fire-and-forget and not recorded. -/
def StartEnemyAttack (e : Entity) (profile : AttackProfile) : Entity :=
  { e with
    aiState := AI_STATE_ATTACK
    state := EntityState.attack
    currentAnimIndex := profile.animIndex
    isAttacking := true
    attackCooldown := profile.cooldown
    attackTimer := 0
    attackHasHit := false
    attackDamage := profile.damage
    hitFrameStart := profile.hitFrameStart
    hitFrameEnd := profile.hitFrameEnd
    lastAnimIndex := -1 }

/-- The 70%/30% punch-or-kick draw shared by the two attack sites
(`entities.c` lines 1302-1305 and 1345-1348). -/
def chooseEnemyProfile (profileRoll : ℚ) : AttackProfile :=
  if profileRoll < 3/10 then ENEMY_ATTACK_KICK_PROFILE
  else ENEMY_ATTACK_PUNCH_PROFILE

/-- The evade check at the end of the Position case (`entities.c` lines
1353-1359). -/
def positionEvadeCheck (targetAttacking : Bool) (dist attackRange : ℚ)
    (x : Entity) : Entity :=
  if targetAttacking ∧ dist ≤ attackRange * (12/10) ∧ x.aiTimer ≤ 0 then
    { x with
      aiState := AI_STATE_EVADE
      aiTimer := 4/10
      state := EntityState.move }
  else x

/-- The `switch (e->aiState)` of `ProcessEnemyAI` (`entities.c` lines
1273-1393), applied after the pre-switch bookkeeping. -/
def enemyAISwitch (e5 targetPlayer : Entity) (distToPlayer dirToPlayer : ℚ)
    (prms : AIParams) (profileRoll evadeRoll : ℚ) : Entity :=
  if e5.aiState = AI_STATE_IDLE then
    let e6 : Entity := { e5 with
                currentAnimIndex := ANIM_IDLE
                state := EntityState.idle }
    if distToPlayer ≤ prms.sightDist then
      { e6 with
        aiState := AI_STATE_CHASE
        currentAnimIndex := ANIM_WALK
        state := EntityState.move }
    else e6
  else if e5.aiState = AI_STATE_CHASE then
    let e6 : Entity := { e5 with
                currentAnimIndex := ANIM_WALK
                state := EntityState.move }
    if distToPlayer > prms.sightDist then
      { e6 with
        aiState := AI_STATE_IDLE
        currentAnimIndex := ANIM_IDLE
        state := EntityState.idle }
    else if distToPlayer ≤ prms.attackRange then
      if e6.attackCooldown ≤ 0 ∧ ¬targetPlayer.isAttacking then
        StartEnemyAttack e6 (chooseEnemyProfile profileRoll)
      else
        { e6 with
        aiState := AI_STATE_POSITION
        state := EntityState.move }
    else
      let speed := if distToPlayer ≤ prms.attackRange + 50 then
          prms.positionSpeed
        else prms.chaseSpeed
      let e7 : Entity := { e6 with
        velocity := { e6.velocity with x := dirToPlayer * speed } }
      if targetPlayer.isAttacking ∧ distToPlayer ≤ prms.attackRange * (3/2) ∧
          evadeRoll < ENEMY_EVADE_CHANCE then
        { e7 with
          aiState := AI_STATE_EVADE
          aiTimer := 1/2 }
      else e7
  else if e5.aiState = AI_STATE_POSITION then
    let e6 : Entity := { e5 with
                currentAnimIndex := ANIM_WALK
                state := EntityState.move }
    if distToPlayer < prms.attackRange - 10 then
      positionEvadeCheck targetPlayer.isAttacking distToPlayer
        prms.attackRange
        { e6 with velocity :=
            { e6.velocity with x := -dirToPlayer * prms.positionSpeed } }
    else if distToPlayer > prms.attackRange + 10 then
      positionEvadeCheck targetPlayer.isAttacking distToPlayer
        prms.attackRange
        { e6 with velocity :=
            { e6.velocity with x := dirToPlayer * prms.positionSpeed } }
    else if e6.attackCooldown ≤ 0 ∧ ¬targetPlayer.isAttacking then
      StartEnemyAttack e6 (chooseEnemyProfile profileRoll)
    else
      positionEvadeCheck targetPlayer.isAttacking distToPlayer
        prms.attackRange e6
  else if e5.aiState = AI_STATE_ATTACK then
    { e5 with
      isAttacking := true
      velocity := { e5.velocity with x := 0 } }
  else if e5.aiState = AI_STATE_RETREAT then
    let vx := -dirToPlayer * prms.retreatSpeed
    let e6 : Entity := { e5 with
                currentAnimIndex := ANIM_HURT
                state := EntityState.hurt
                velocity := { e5.velocity with x := vx }
                facingRight := vx > 0 }
    if e6.aiTimer ≤ 0 then
      { e6 with
        wasHurt := false
        aiState := AI_STATE_CHASE
        currentAnimIndex := ANIM_WALK
        state := EntityState.move }
    else e6
  else if e5.aiState = AI_STATE_EVADE then
    let vx := -dirToPlayer * prms.retreatSpeed
    let e6 : Entity := { e5 with
                currentAnimIndex := ANIM_WALK
                state := EntityState.move
                velocity := { e5.velocity with x := vx }
                facingRight := vx > 0 }
    if e6.aiTimer ≤ 0 then
      { e6 with
        aiState := AI_STATE_CHASE
        currentAnimIndex := ANIM_WALK
        state := EntityState.move }
    else e6
  else e5

/-- The facing update at the top of the AI bookkeeping (`entities.c`
line 1243). -/
def enemyFaceStep (e : Entity) (dirToPlayer : ℚ) : Entity :=
  { e with facingRight := dirToPlayer > 0 }

/-- The aiTimer countdown (`entities.c` lines 1245-1252), zero-clamped. -/
def enemyAITimerStep (e : Entity) (dt : ℚ) : Entity :=
  if e.aiTimer > 0 then
    let t := e.aiTimer - dt
    { e with aiTimer := if t < 0 then 0 else t }
  else e

/-- The forced retreat after a hit (`entities.c` lines 1255-1263). -/
def enemyRetreatForce (e : Entity) : Entity :=
  if e.wasHurt ∧ e.aiState ≠ AI_STATE_RETREAT then
    { e with
      aiState := AI_STATE_RETREAT
      aiTimer := if e.aiTimer ≤ 0 then ENEMY_RETREAT_TIME else e.aiTimer
      currentAnimIndex := ANIM_HURT }
  else e

/-- The attack-flag reset outside the Attack state (`entities.c` lines
1265-1268). -/
def enemyAttackFlagReset (e : Entity) : Entity :=
  if ¬(e.aiState = AI_STATE_ATTACK) then { e with isAttacking := false }
  else e

/-- The horizontal-velocity reset before the switch (`entities.c` line
1271). -/
def enemyVelXZero (e : Entity) : Entity :=
  { e with velocity := { e.velocity with x := 0 } }

/-- Pre-switch bookkeeping of `ProcessEnemyAI` with a selected target
(`entities.c` lines 1223-1271): facing, aiTimer countdown
(zero-clamped), forced retreat after a hit, attack-flag reset, and the
horizontal-velocity reset. -/
def enemyAIPre (e : Entity) (dirToPlayer dt : ℚ) : Entity :=
  enemyVelXZero
    (enemyAttackFlagReset
      (enemyRetreatForce (enemyAITimerStep (enemyFaceStep e dirToPlayer) dt)))

/-- `ProcessEnemyAI` (`entities.c` lines 1185-1394).  The empty player
list stands for the null/`numPlayers <= 0` guard (which forces Idle
without touching the velocity); a non-empty list with no living player
in base sight range takes the no-target branch (which also zeroes
horizontal velocity). -/
def ProcessEnemyAI (e : Entity) (players : List Entity) (dt : ℚ)
    (profileRoll evadeRoll : ℚ) : Entity :=
  if players = [] then
    { e with
      aiState := AI_STATE_IDLE
      currentAnimIndex := ANIM_IDLE
      state := EntityState.idle }
  else
    match selectTarget e players with
    | (none, _) =>
      { e with
        aiState := AI_STATE_IDLE
        currentAnimIndex := ANIM_IDLE
        state := EntityState.idle
        velocity := { e.velocity with x := 0 } }
    | (some targetPlayer, minDist) =>
      let distToPlayer := minDist
      let dirToPlayer : ℚ :=
        if targetPlayer.position.x ≥ e.position.x then 1 else -1
      let prms := enemyAIParams e
      let e5 := enemyAIPre e dirToPlayer dt
      enemyAISwitch e5 targetPlayer distToPlayer dirToPlayer prms
        profileRoll evadeRoll

/-! ## Animation sequencer (`UpdateAnimation`, `entities.c` 189-226) -/

/-- The catch-up `while (timer >= 1.0f)` loop: step once per whole unit
of timer, stopping (with `break`) when the frame index reaches the last
frame.  The fuel bounds the number of iterations; the caller passes
`⌈timer⌉`, which the loop can never exceed since every iteration
consumes one unit. -/
def animAdvanceLoop : Nat → Int → Int → ℚ → Int × ℚ
  | 0, frame, _, timer => (frame, timer)
  | fuel + 1, frame, total, timer =>
    if 1 ≤ timer then
      let timer' := timer - 1
      let frame' := frame + 1
      if frame' ≥ total then (total - 1, timer')
      else animAdvanceLoop fuel frame' total timer'
    else (frame, timer)

/-- `UpdateAnimation` (`entities.c` lines 189-226): fast rate for clips
of at most 3 frames, no implicit loop, clamped frame index. -/
def UpdateAnimation (anim : Animation) (dt : ℚ) : Animation :=
  if anim.totalFrames ≤ 0 then { anim with currentFrame := 0 }
  else
    let t := anim.timer + (if anim.totalFrames ≤ 3 then dt * 12 else dt * 8)
    let r := animAdvanceLoop (Int.toNat ⌈t⌉) anim.currentFrame
      anim.totalFrames t
    { anim with
      currentFrame := SafeClamp r.1 0 (anim.totalFrames - 1)
      timer := r.2 }

/-- `ApplyFriction` (`entities.c` lines 445-474). -/
def ApplyFriction (e : Entity) (maxSpeed : ℚ) : Entity :=
  if ¬e.grounded then e
  else
    let clampedLimit :=
      if maxSpeed > 0 ∧ maxSpeed < MAX_ENTITY_SPEED then maxSpeed
      else MAX_ENTITY_SPEED
    let v1 :=
      if |e.velocity.x| > clampedLimit then
        SafeClampFloat e.velocity.x (-clampedLimit) clampedLimit
      else e.velocity.x
    let v2 :=
      if |v1| > 0 then
        let v := v1 * FRICTION
        if |v| < MIN_VELOCITY then 0 else v
      else v1
    { e with velocity := { e.velocity with x := v2 } }

/-! ## Player control (`entities.c` 574-911)

Key bindings differ between player 1 and player 2 but map to the same
actions, so the input is abstracted as the pressed-action record. -/

structure Input where
  left : Bool
  right : Bool
  jumpPressed : Bool
  atk1Pressed : Bool
  atk2Pressed : Bool
  atk3Pressed : Bool
  grabPressed : Bool
  grabReleased : Bool
  deriving Repr, DecidableEq

/-- Frame counts exposed by the asset layer for the player clips
(`playerAssets`); the punch clip count is hardcoded to 3 in
`UpdatePlayerAnimationFrames`. -/
structure PlayerAssets where
  idle : Int
  walk : Int
  jump : Int
  jab : Int
  kick : Int
  jump_kick : Int
  dive_kick : Int
  hurt : Int
  deriving Repr, DecidableEq

/-- Frame counts exposed by the asset layer for the enemy clips. -/
structure EnemyAssets where
  idle : Int
  walk : Int
  punch : Int
  hurt : Int
  deriving Repr, DecidableEq

/-- `UpdatePlayerDeath` (`entities.c` lines 574-591). -/
def UpdatePlayerDeath (p : Entity) (dt : ℚ) : Entity :=
  if p.deathTimer > 0 then
    let t := p.deathTimer - dt
    let p1 : Entity := { p with
      deathTimer := t
      velocity := ⟨0, 0⟩
      currentAnimIndex := ANIM_HURT
      state := EntityState.dead
      stateTimer := 0
      grounded := true }
    if t ≤ 0 then { p1 with health := 0 } else p1
  else p

/-- `StartPlayerAttack` (`entities.c` lines 598-629); the attack sound
cue is fire-and-forget and not recorded. -/
def StartPlayerAttack (p : Entity) (profile : AttackProfile) : Entity :=
  { p with
    isAttacking := true
    state := EntityState.attack
    stateTimer := 0
    attackTimer := 0
    attackHasHit := false
    attackDamage := profile.damage
    attackCooldown := profile.cooldown
    hitFrameStart := profile.hitFrameStart
    hitFrameEnd := profile.hitFrameEnd
    currentAnimIndex := profile.animIndex
    lastAnimIndex := -1
    idleTimer := 0
    velocity := { p.velocity with x := 0 } }

/-- `StartAirAttack` (`entities.c` lines 631-649). -/
def StartAirAttack (p : Entity) (animIndex damage : Int) (cooldown : ℚ) :
    Entity :=
  { p with
    isAttacking := true
    state := EntityState.attack
    stateTimer := 0
    attackTimer := 0
    attackHasHit := false
    attackDamage := damage
    attackCooldown := cooldown
    hitFrameStart := 1
    hitFrameEnd := 2
    currentAnimIndex := animIndex
    lastAnimIndex := -1
    idleTimer := 0
    velocity := { p.velocity with x := p.velocity.x * (8/10) } }

/-- The grab search (`entities.c` lines 816-832): closest living enemy
within radius 60.  The C compares `sqrtf(dx*dx+dy*dy)` against the
running minimum; both sides are nonnegative, so comparing the squares
(radius squared 3600) selects the same winner. -/
def grabSearch (p : Entity) (r : Registry) : Int :=
  ((List.range r.activeEnemies).foldl
    (fun acc k =>
      let en := regGet r k
      if 0 < en.health then
        let dx := en.position.x - p.position.x
        let dy := |en.position.y - p.position.y|
        let distSq := dx * dx + dy * dy
        if distSq < acc.2 then ((k : Int), distSq) else acc
      else acc)
    ((-1 : Int), (3600 : ℚ))).1

/-- Locking onto a found grab target (`entities.c` lines 833-842). -/
def playerGrabStart (p : Entity) (r : Registry) : Entity × Registry :=
  let closest := grabSearch p r
  if closest ≠ -1 then
    let en := regGet r closest.toNat
    ({ p with
       grabbedEnemyIndex := closest
       state := EntityState.grab
       currentAnimIndex := ANIM_PUNCH
       lastAnimIndex := -1 },
     ⟨r.slots.set closest.toNat (some { en with
        state := EntityState.hurt
        velocity := ⟨0, 0⟩
        stunTimer := 1 }), r.activeEnemies⟩)
  else (p, r)

/-- Releasing a grab (`entities.c` lines 845-859): launch the held enemy
and apply the bonus throw damage. -/
def playerGrabRelease (p : Entity) (r : Registry) : Entity × Registry :=
  let idx := p.grabbedEnemyIndex
  let r1 : Registry :=
    if idx < (r.activeEnemies : Int) ∧ 0 < (regGet r idx.toNat).health then
      let throwVel : ℚ := if p.facingRight then 400 else -400
      let en := regGet r idx.toNat
      let en1 : Entity := { en with
        velocity := ⟨throwVel, -200⟩
        state := EntityState.move
        stunTimer := 1/2 }
      ⟨r.slots.set idx.toNat (some (DamageEntity en1 p 5 true).target),
       r.activeEnemies⟩
    else r
  ({ p with grabbedEnemyIndex := -1, state := EntityState.idle }, r1)

/-- The jump start of `ProcessPlayerInput` (`entities.c` lines 684-694). -/
def playerJumpStep (p : Entity) (inp : Input) : Entity :=
  if inp.jumpPressed ∧ p.grounded then
    { p with
      velocity := { p.velocity with y := JUMP_VELOCITY }
      state := EntityState.jump
      currentAnimIndex := ANIM_JUMP
      lastAnimIndex := -1
      grounded := false }
  else p

/-- The horizontal-movement handling of `ProcessPlayerInput`
(`entities.c` lines 696-724); the `Bool` is the `moving` flag. -/
def playerMoveStep (p1 : Entity) (inp : Input) : Entity × Bool :=
  let moveDir : ℚ := (if inp.left then -1 else 0) + (if inp.right then 1 else 0)
  if moveDir ≠ 0 then
    let q : Entity := { p1 with
      velocity := { p1.velocity with x := moveDir * PLAYER_SPEED }
      facingRight := moveDir > 0 }
    (if q.state ≠ EntityState.jump then
      { q with state := EntityState.move, currentAnimIndex := ANIM_WALK }
    else q, true)
  else if p1.state = EntityState.move ∧ p1.grounded then
    ({ p1 with
       velocity := { p1.velocity with x := 0 }
       state := EntityState.idle }, false)
  else (p1, false)

/-- The attack-start chain of `ProcessPlayerInput` (`entities.c` lines
727-812), gated on an expired attack cooldown. -/
def playerAttackStartStep (p2 : Entity) (inp : Input) : Entity :=
  if p2.attackCooldown ≤ 0 then
    let isAirAttack := ¬p2.grounded
    let airAnim := if p2.velocity.y < 0 then ANIM_JUMP_KICK
      else ANIM_DIVE_KICK
    if inp.atk1Pressed then
      if isAirAttack then StartAirAttack p2 airAnim (ATTACK_DAMAGE + 5) (1/2)
      else StartPlayerAttack p2 PLAYER_ATTACK_JAB_PROFILE
    else if inp.atk2Pressed then
      if isAirAttack then StartAirAttack p2 airAnim (PUNCH_DAMAGE + 5) (1/2)
      else StartPlayerAttack p2 PLAYER_ATTACK_PUNCH_PROFILE
    else if inp.atk3Pressed then
      if isAirAttack then StartAirAttack p2 airAnim (KICK_DAMAGE + 5) (1/2)
      else StartPlayerAttack p2 PLAYER_ATTACK_KICK_PROFILE
    else p2
  else p2

/-- The grab press/release handling of `ProcessPlayerInput`
(`entities.c` lines 814-859). -/
def playerGrabPhase (p3 : Entity) (r : Registry) (inp : Input) :
    Entity × Registry :=
  let pr4 : Entity × Registry :=
    if inp.grabPressed ∧ p3.grabbedEnemyIndex = -1 ∧ p3.grounded then
      playerGrabStart p3 r
    else (p3, r)
  if inp.grabReleased ∧ pr4.1.grabbedEnemyIndex ≠ -1 then
    playerGrabRelease pr4.1 pr4.2
  else pr4

/-- The controllable part of `ProcessPlayerInput` (`entities.c` lines
670-860): movement, jumping, attack starts, and the grab mechanics.
Returns the `moving` flag alongside the updated player and registry. -/
def playerControl (p : Entity) (r : Registry) (inp : Input) :
    Entity × Registry × Bool :=
  let moved := playerMoveStep (playerJumpStep p inp) inp
  let pr := playerGrabPhase (playerAttackStartStep moved.1 inp) r inp
  (pr.1, pr.2, moved.2)

/-- The idle-transition debounce (`entities.c` lines 862-878). -/
def idleDebounce (p : Entity) (moving : Bool) (dt : ℚ) : Entity :=
  if ¬p.isAttacking ∧ p.grounded ∧ ¬moving ∧ p.stunTimer ≤ 0 ∧
      p.state ≠ EntityState.jump ∧ p.state ≠ EntityState.attack ∧
      p.state ≠ EntityState.dead then
    let t := p.idleTimer + dt
    if t > IDLE_DELAY then
      { p with
        currentAnimIndex := ANIM_IDLE
        state := EntityState.idle
        idleTimer := 0
        lastAnimIndex := -1 }
    else { p with idleTimer := t }
  else if moving then { p with idleTimer := 0 }
  else p

/-- The hit scan of the player attack over the enemy registry
(`entities.c` lines 899-909): first living intersecting enemy in
registry order takes the damage. -/
def hitScanReg (attackHit : Rect) (attacker : Entity) (dmg : Int)
    (r : Registry) : Registry × Bool :=
  (List.range r.activeEnemies).foldl
    (fun acc i =>
      if acc.2 then acc
      else if hitCandidate attackHit (regGet acc.1 i) then
        (⟨acc.1.slots.set i
          (some (DamageEntity (regGet acc.1 i) attacker dmg true).target),
          acc.1.activeEnemies⟩, true)
      else acc)
    (r, false)

/-- The player attack hit-detection block over the registry
(`entities.c` lines 880-911; the same block as
`processPlayerHitDetection`, stated on the registry view used by
`UpdatePlayer`). -/
def processPlayerHitDetectionReg (p : Entity) (r : Registry) :
    Entity × Registry :=
  if p.isAttacking ∧ ¬p.attackHasHit ∧ p.attackDamage > 0 ∧
      p.anim.totalFrames > 0 then
    if p.anim.currentFrame < clampedHitStart p ∨
        p.anim.currentFrame > clampedHitEnd p then
      (p, r)
    else
      let res := hitScanReg (ComputeAttackHitbox p) p p.attackDamage r
      (if res.2 then { p with attackHasHit := true } else p, res.1)
  else (p, r)

/-- `ProcessPlayerInput` (`entities.c` lines 657-911). -/
def ProcessPlayerInput (p : Entity) (r : Registry) (inp : Input) (dt : ℚ) :
    Entity × Registry :=
  let canControl := p.stunTimer ≤ 0 ∧ p.state ≠ EntityState.attack ∧
    p.state ≠ EntityState.hurt ∧ p.state ≠ EntityState.dead
  let c : Entity × Registry × Bool :=
    if canControl then playerControl p r inp else (p, r, false)
  let p2 := idleDebounce c.1 c.2.2 dt
  processPlayerHitDetectionReg p2 c.2.1

/-- `UpdatePlayerAnimationFrames` (`entities.c` lines 917-953). -/
def UpdatePlayerAnimationFrames (assets : PlayerAssets) (p : Entity) :
    Entity :=
  let tf :=
    if p.currentAnimIndex = ANIM_IDLE then assets.idle
    else if p.currentAnimIndex = ANIM_WALK then assets.walk
    else if p.currentAnimIndex = ANIM_JUMP then assets.jump
    else if p.currentAnimIndex = ANIM_JAB then assets.jab
    else if p.currentAnimIndex = ANIM_PUNCH then 3
    else if p.currentAnimIndex = ANIM_KICK then assets.kick
    else if p.currentAnimIndex = ANIM_JUMP_KICK then assets.jump_kick
    else if p.currentAnimIndex = ANIM_DIVE_KICK then assets.dive_kick
    else if p.currentAnimIndex = ANIM_HURT then assets.hurt
    else assets.idle
  { p with anim := { p.anim with totalFrames := tf } }

/-- The stun countdown block of `UpdatePlayer` (`entities.c` lines
972-982).  Note the timer is simply decremented: on expiry it is left
at its (possibly negative) value. -/
def playerStunStep (p : Entity) (dt : ℚ) : Entity :=
  if p.stunTimer > 0 then
    let p1 : Entity := { p with stunTimer := p.stunTimer - dt }
    if p1.stunTimer ≤ 0 ∧ p1.health > 0 ∧ p1.state = EntityState.hurt then
      { p1 with
        state := if p1.grounded then EntityState.idle else EntityState.jump
        currentAnimIndex := if p1.grounded then ANIM_IDLE else ANIM_JUMP
        lastAnimIndex := -1 }
    else p1
  else p

/-- The attack-cooldown countdown of `UpdatePlayer` (`entities.c` lines
1007-1014), saturating at zero. -/
def playerCooldownStep (p : Entity) (dt : ℚ) : Entity :=
  if p.attackCooldown > 0 then
    let t := p.attackCooldown - dt
    { p with attackCooldown := if t < 0 then 0 else t }
  else p

/-- Animation-change detection of `UpdatePlayer` (`entities.c` lines
1017-1025). -/
def playerAnimChangeStep (assets : PlayerAssets) (p : Entity) : Entity :=
  if p.currentAnimIndex ≠ p.lastAnimIndex then
    let p1 := UpdatePlayerAnimationFrames assets
      { p with lastAnimIndex := p.currentAnimIndex }
    { p1 with anim := { p1.anim with currentFrame := 0, timer := 0 } }
  else p

/-- Attack completion of `UpdatePlayer` (`entities.c` lines 1030-1058). -/
def playerAttackEndStep (p : Entity) (dt : ℚ) : Entity :=
  if p.isAttacking ∧ ANIM_JAB ≤ p.currentAnimIndex ∧
      p.currentAnimIndex ≤ ANIM_DIVE_KICK then
    let t := p.attackTimer + dt
    let animationFinished := p.anim.currentFrame ≥ p.anim.totalFrames - 1
    let timeoutExpired := t ≥ ATTACK_TIMEOUT
    if animationFinished ∨ timeoutExpired then
      { p with
        currentAnimIndex := ANIM_IDLE
        isAttacking := false
        idleTimer := 0
        attackTimer := 0
        attackDamage := 0
        attackHasHit := false
        state := if p.grounded then EntityState.idle else EntityState.jump
        lastAnimIndex := -1 }
    else { p with attackTimer := t }
  else
    let p1 : Entity := { p with attackTimer := 0 }
    if ¬p1.isAttacking then { p1 with attackDamage := 0 } else p1

/-- Death trigger of `UpdatePlayer` (`entities.c` lines 1061-1064). -/
def playerDeathTrigger (p : Entity) : Entity :=
  if p.health ≤ 0 ∧ p.deathTimer = 0 then { p with deathTimer := DEATH_TIME }
  else p

/-- Death-state physics override of `UpdatePlayer` (`entities.c` lines
1067-1073). -/
def playerDeathPin (p : Entity) : Entity :=
  { p with
    position := { p.position with y := GROUND_Y - PLAYER_HEIGHT }
    velocity := ⟨0, 0⟩
    hitbox := ⟨p.position.x, GROUND_Y - PLAYER_HEIGHT, PLAYER_WIDTH,
      PLAYER_HEIGHT⟩ }

/-- The `stateTimer += dt` accumulation at the top of `UpdatePlayer`
(`entities.c` line 969). -/
def playerStateTimerTick (p : Entity) (dt : ℚ) : Entity :=
  { p with stateTimer := p.stateTimer + dt }

/-- The landing reset of `UpdatePlayer` (`entities.c` lines 995-1004). -/
def playerLandingReset (wasGrounded : Bool) (p4 : Entity) : Entity :=
  if ¬wasGrounded ∧ p4.grounded ∧ p4.state ≠ EntityState.dead ∧
      ¬p4.isAttacking ∧ p4.stunTimer ≤ 0 then
    { p4 with
      state := EntityState.idle
      currentAnimIndex := ANIM_IDLE
      lastAnimIndex := -1 }
  else p4

/-- The living-player movement phase of `UpdatePlayer` (`entities.c`
lines 984-1004): input, friction, physics, and the landing reset. -/
def playerMovePhase (p1 : Entity) (r : Registry) (inp : Input) (l : Level)
    (dt : ℚ) : Entity × Registry :=
  let c := ProcessPlayerInput p1 r inp dt
  let p3 := ApplyFriction c.1 PLAYER_SPEED
  (playerLandingReset p3.grounded (UpdatePhysics l p3 dt).entity, c.2)

/-- The animation advance `UpdateAnimation(&p->anim, dt)` of
`UpdatePlayer` (`entities.c` line 1027). -/
def playerAnimTick (p : Entity) (dt : ℚ) : Entity :=
  { p with anim := UpdateAnimation p.anim dt }

/-- The death-state physics override applied only while dying
(`entities.c` lines 1067-1073). -/
def playerDeathPinIf (isDying : Bool) (p : Entity) : Entity :=
  if isDying then playerDeathPin p else p

/-- The state-change `stateTimer` reset of `UpdatePlayer` (`entities.c`
lines 1076-1078). -/
def playerStateResetIf (previousState : EntityState) (p : Entity) : Entity :=
  if p.state ≠ previousState then { p with stateTimer := 0 } else p

/-- `UpdatePlayer` (`entities.c` lines 961-1101), one whole player tick:
stun, death handling or input+friction+physics, cooldown, animation,
attack completion, death trigger, death pin, state-change bookkeeping,
and grab maintenance. -/
def UpdatePlayer (p : Entity) (r : Registry) (inp : Input)
    (assets : PlayerAssets) (l : Level) (dt : ℚ) : Entity × Registry :=
  let previousState := p.state
  let p1 := playerStunStep (playerStateTimerTick p dt) dt
  let isDying := p1.deathTimer > 0
  let pr2 : Entity × Registry :=
    if isDying then (UpdatePlayerDeath p1 dt, r)
    else playerMovePhase p1 r inp l dt
  let p9 := playerAttackEndStep
    (playerAnimTick (playerAnimChangeStep assets (playerCooldownStep pr2.1 dt))
      dt) dt
  grabRefresh
    (playerStateResetIf previousState
      (playerDeathPinIf isDying (playerDeathTrigger p9)))
    pr2.2

/-! ## Per-enemy update (`UpdateEnemies` loop body, `entities.c` lines
1488-1658) -/

/-- `UpdateEnemyAnimationFrames` (`entities.c` lines 1112-1142). -/
def UpdateEnemyAnimationFrames (assets : EnemyAssets) (e : Entity) :
    Entity :=
  let tf :=
    if e.currentAnimIndex = ANIM_IDLE then assets.idle
    else if e.currentAnimIndex = ANIM_WALK then assets.walk
    else if e.currentAnimIndex = ANIM_JUMP then assets.walk
    else if e.currentAnimIndex = ANIM_PUNCH then assets.punch
    else if e.currentAnimIndex = ANIM_HURT then assets.hurt
    else if e.currentAnimIndex = ANIM_KICK then assets.punch
    else assets.idle
  { e with anim := { e.anim with totalFrames := tf } }

/-- Friction selection for enemies (`entities.c` lines 1577-1599). -/
def enemyFrictionStep (e : Entity) : Entity :=
  if e.currentAnimIndex = ANIM_WALK then
    let frictionSpeed :=
      if e.aiState = AI_STATE_CHASE then ENEMY_CHASE_SPEED
      else if e.aiState = AI_STATE_RETREAT ∨ e.aiState = AI_STATE_EVADE then
        ENEMY_RETREAT_SPEED
      else if e.aiState = AI_STATE_POSITION then ENEMY_POSITION_SPEED
      else ENEMY_SPEED
    ApplyFriction e frictionSpeed
  else if e.grounded ∧ |e.velocity.x| > 0 then
    ApplyFriction e ENEMY_RETREAT_SPEED
  else e

structure EnemyStepResult where
  enemy : Option Entity
  players : List Entity

/-- The enemy attack-cooldown countdown (`entities.c` lines 1502-1509),
saturating at zero. -/
def enemyCooldownStep (e : Entity) (dt : ℚ) : Entity :=
  if e.attackCooldown > 0 then
    let t := e.attackCooldown - dt
    { e with attackCooldown := if t < 0 then 0 else t }
  else e

/-- The enemy `stateTimer += dt` accumulation (`entities.c` line 1511). -/
def enemyStateTimerTick (e : Entity) (dt : ℚ) : Entity :=
  { e with stateTimer := e.stateTimer + dt }

/-- The enemy stun countdown (`entities.c` lines 1513-1529): zero-clamped
on expiry; the `Bool` is the `skipAI` flag (still stunned this tick). -/
def enemyStunStep (e2 : Entity) (dt : ℚ) : Entity × Bool :=
  if e2.stunTimer > 0 then
    let t := e2.stunTimer - dt
    if t ≤ 0 then ({ e2 with stunTimer := 0 }, false)
    else ({ e2 with
      stunTimer := t
      state := EntityState.hurt
      currentAnimIndex := ANIM_HURT }, true)
  else (e2, false)

/-- The grabbed-enemy hold (`entities.c` lines 1532-1541). -/
def enemyGrabHold (e3 : Entity) : Entity :=
  { e3 with
    currentAnimIndex := ANIM_HURT
    state := EntityState.hurt
    velocity := ⟨0, 0⟩ }

/-- The AI dispatch plus the state-change `stateTimer` reset
(`entities.c` lines 1544-1575). -/
def enemyAIPhase (skipAI : Bool) (e3 : Entity) (players : List Entity)
    (dt profileRoll evadeRoll : ℚ) : Entity :=
  let previousState := e3.state
  let e4 :=
    if ¬skipAI then ProcessEnemyAI e3 players dt profileRoll evadeRoll
    else e3
  if e4.state ≠ previousState then { e4 with stateTimer := 0 } else e4

/-- The enemy animation-change detection (`entities.c` lines 1601-1609). -/
def enemyAnimChangeStep (assets : EnemyAssets) (e6 : Entity) : Entity :=
  if e6.currentAnimIndex ≠ e6.lastAnimIndex then
    UpdateEnemyAnimationFrames assets
      { e6 with
        anim := { e6.anim with currentFrame := 0, timer := 0 }
        lastAnimIndex := e6.currentAnimIndex }
  else e6

/-- The enemy physics integration (`entities.c` line 1611). -/
def enemyPhysStep (l : Level) (e : Entity) (dt : ℚ) : Entity :=
  (UpdatePhysics l e dt).entity

/-- The enemy animation advance (`entities.c` line 1613). -/
def enemyAnimTick (e : Entity) (dt : ℚ) : Entity :=
  { e with anim := UpdateAnimation e.anim dt }

/-- The mid-attack animation slowdown (`entities.c` lines 1617-1625). -/
def enemyAttackSlowdown (e10 : Entity) : Entity :=
  if e10.isAttacking then
    { e10 with anim := { e10.anim with
        timer := e10.anim.timer * (1/2)
        currentFrame := SafeClamp e10.anim.currentFrame 0
          (e10.anim.totalFrames - 1) } }
  else e10

/-- The attack-completion block (`entities.c` lines 1628-1656). -/
def enemyAttackComplete (e11 : Entity) (dt : ℚ) : Entity :=
  if e11.isAttacking then
    let t := e11.attackTimer + dt
    if t ≥ 1/2 ∨ t ≥ ATTACK_TIMEOUT then
      let q : Entity := { e11 with
        isAttacking := false
        attackTimer := 0
        attackDamage := 0
        attackHasHit := false }
      if q.aiState = AI_STATE_ATTACK then
        { q with
          aiState := AI_STATE_CHASE
          currentAnimIndex := ANIM_WALK
          state := EntityState.move
          stateTimer := 0 }
      else q
    else { e11 with attackTimer := t }
  else if e11.attackTimer > 0 then { e11 with attackTimer := 0 }
  else e11

/-- The body of the `UpdateEnemies` loop for the enemy at registry index
`i` (`entities.c` lines 1488-1658).  A `none` enemy means the death
timer expired this tick and the slot is removed (the caller performs the
swap-removal).  The players list is updated in place by the enemy's
attack hit detection. -/
def updateEnemyStep (e : Entity) (i : Int) (players : List Entity)
    (l : Level) (assets : EnemyAssets) (dt profileRoll evadeRoll : ℚ) :
    EnemyStepResult :=
  if e.deathTimer > 0 then
    let t := e.deathTimer - dt
    if t ≤ 0 then ⟨none, players⟩
    else ⟨some { e with
      deathTimer := t
      currentAnimIndex := ANIM_HURT
      velocity := ⟨0, 0⟩ }, players⟩
  else if e.health ≤ 0 then ⟨some e, players⟩
  else
    let stunres := enemyStunStep
      (enemyStateTimerTick (enemyCooldownStep e dt) dt) dt
    let e3 := stunres.1
    if players.any (fun pl => pl.grabbedEnemyIndex = i) then
      ⟨some (enemyGrabHold e3), players⟩
    else
      let e9 := enemyAnimTick
        (enemyPhysStep l
          (enemyAnimChangeStep assets
            (enemyFrictionStep
              (enemyAIPhase stunres.2 e3 players dt profileRoll evadeRoll)))
          dt) dt
      let att := ProcessEnemyAttack e9 players assets.punch
      ⟨some (enemyAttackComplete (enemyAttackSlowdown att.1) dt), att.2⟩

/-- The spec's countdown-timer invariant restricted to the three timers
the enemy tick owns: stun, attack cooldown, and AI timer all
nonnegative. -/
def TimersNonneg (e : Entity) : Prop :=
  0 ≤ e.stunTimer ∧ 0 ≤ e.attackCooldown ∧ 0 ≤ e.aiTimer

/-- A boss-class enemy by capacity (`maxHealth` 160) whose current
health has dropped to the standard-enemy range. -/
def bossLowHealth : Entity :=
  { zeroEntity with
    maxHealth := 160
    health := 40
    aiState := AI_STATE_CHASE
    state := EntityState.move
    position := ⟨0, 401⟩ }

/-- A living player 70 px from `bossLowHealth`: inside base sight,
outside base attack range. -/
def nearPlayer : Entity :=
  { samplePlayer with position := ⟨70, 401⟩ }

/-- A boss at full health (160, above the standard maximum 50). -/
def fullBoss : Entity :=
  { zeroEntity with
    maxHealth := 160
    health := 160
    aiState := AI_STATE_CHASE
    state := EntityState.move
    position := ⟨0, 401⟩ }

/-- A living player 220 px away: beyond the base acquisition threshold
201 but inside the boss's enlarged sight range 240. -/
def farPlayer : Entity :=
  { samplePlayer with position := ⟨220, 401⟩ }

/-- A level with no tile map and no static colliders. -/
def plainLevel : Level where
  hasTileMap := false
  height := 0
  tileMap := fun _ => 0
  tilesPerRow := 0
  width := 800
  colliders := []

/-- The all-released input record. -/
def noInput : Input := ⟨false, false, false, false, false, false, false, false⟩

/-- Concrete frame counts for the player clips. -/
def samplePlayerAssets : PlayerAssets := ⟨2, 2, 2, 3, 3, 2, 2, 2⟩

/-- Concrete frame counts for the enemy clips. -/
def sampleEnemyAssets : EnemyAssets := ⟨2, 2, 3, 2⟩

/-- A grounded player 1/100 s from the end of hit stun. -/
def stunnedPlayer : Entity :=
  { zeroEntity with
    health := 100
    maxHealth := 100
    position := ⟨100, 401⟩
    grounded := true
    state := EntityState.hurt
    currentAnimIndex := ANIM_HURT
    stunTimer := 1/100
    grabbedEnemyIndex := -1 }

/-- The dying enemy after one 1/60 s tick: only the death countdown
advanced, the hurt pose and zero velocity pinned. -/
def dyingEnemyAfter : Entity :=
  { dyingEnemy with
    deathTimer := 71/60
    currentAnimIndex := ANIM_HURT
    velocity := ⟨0, 0⟩ }

/-! # Theorems -/

/-! ## Arithmetic helper lemmas -/

theorem SafeClamp_mem (v lo hi : Int) (h : lo ≤ hi) :
    lo ≤ SafeClamp v lo hi ∧ SafeClamp v lo hi ≤ hi := by
  unfold SafeClamp
  split_ifs with h1 h2 <;> omega

/-! ## Projection lemmas for the damage phases -/

@[simp] theorem damageSetRecovery_health (t : Entity) (b : Bool) :
    (damageSetRecovery t b).health = t.health := rfl

@[simp] theorem damageSetRecovery_maxHealth (t : Entity) (b : Bool) :
    (damageSetRecovery t b).maxHealth = t.maxHealth := rfl

@[simp] theorem damageKnockbackStun_health (t a : Entity) (b : Bool) :
    (damageKnockbackStun t a b).health = t.health := by
  unfold damageKnockbackStun ApplyKnockback
  split_ifs <;> rfl

@[simp] theorem damageKnockbackStun_maxHealth (t a : Entity) (b : Bool) :
    (damageKnockbackStun t a b).maxHealth = t.maxHealth := by
  unfold damageKnockbackStun ApplyKnockback
  split_ifs <;> rfl

@[simp] theorem damageTriggerDeath_health (t : Entity) :
    (damageTriggerDeath t).health = t.health := by
  unfold damageTriggerDeath
  split_ifs <;> rfl

@[simp] theorem damageTriggerDeath_maxHealth (t : Entity) :
    (damageTriggerDeath t).maxHealth = t.maxHealth := by
  unfold damageTriggerDeath
  split_ifs <;> rfl

@[simp] theorem damageApplyHealth_maxHealth (t : Entity) (d : Int) :
    (damageApplyHealth t d).maxHealth = t.maxHealth := rfl

@[simp] theorem damageTriggerDeath_aiState (t : Entity) :
    (damageTriggerDeath t).aiState = t.aiState := by
  unfold damageTriggerDeath; split_ifs <;> rfl

@[simp] theorem damageTriggerDeath_aiTimer (t : Entity) :
    (damageTriggerDeath t).aiTimer = t.aiTimer := by
  unfold damageTriggerDeath; split_ifs <;> rfl

@[simp] theorem damageTriggerDeath_wasHurt (t : Entity) :
    (damageTriggerDeath t).wasHurt = t.wasHurt := by
  unfold damageTriggerDeath; split_ifs <;> rfl

theorem damageTriggerDeath_stunTimer_of_pos (t : Entity)
    (h : 0 < t.health) : (damageTriggerDeath t).stunTimer = t.stunTimer := by
  unfold damageTriggerDeath
  split_ifs with hc
  · omega
  · rfl

@[simp] theorem damageKnockbackStun_true_aiState (t a : Entity) :
    (damageKnockbackStun t a true).aiState = AI_STATE_RETREAT := rfl

@[simp] theorem damageKnockbackStun_true_aiTimer (t a : Entity) :
    (damageKnockbackStun t a true).aiTimer = ENEMY_RETREAT_TIME := rfl

@[simp] theorem damageKnockbackStun_true_wasHurt (t a : Entity) :
    (damageKnockbackStun t a true).wasHurt = true := rfl

@[simp] theorem damageKnockbackStun_true_stunTimer (t a : Entity) :
    (damageKnockbackStun t a true).stunTimer = ENEMY_STUN_TIME := rfl

@[simp] theorem damageKnockbackStun_false_stunTimer (t a : Entity) :
    (damageKnockbackStun t a false).stunTimer = PLAYER_STUN_TIME := rfl

/-- After the death-trigger phase, the cue guard (`health <= 0 &&
deathTimer == 0.0f`) is always false: either the death timer was just set
to the nonzero `DEATH_TIME`, or the guard already failed before the
phase (which then leaves the entity unchanged). -/
theorem damageTriggerDeath_no_cue (t : Entity) :
    ¬((damageTriggerDeath t).health ≤ 0 ∧
      (damageTriggerDeath t).deathTimer = 0) := by
  unfold damageTriggerDeath
  split_ifs with hc
  · intro h
    have h2 : (DEATH_TIME : ℚ) = 0 := h.2
    norm_num [DEATH_TIME] at h2
  · exact hc

/-! ## Claim C1 -/

/-- C1 (code bug evidence): at the spec's own scenario — an enemy at 10
health hit once for 15 damage by the player — the call clamps health to
0, starts the fixed-duration death timer, enters the Dead state, zeroes
vertical velocity and forces grounded, but the death cue fires zero
times, not exactly once: the cue's guard `health <= 0 && deathTimer ==
0.0f` is evaluated after the death timer has already been set to
`DEATH_TIME`, so `PlaySound(gameSounds.deathSound)` is unreachable. -/
theorem c1_lethal_hit_starts_death_but_fires_no_cue :
    (DamageEntity sampleEnemy10 samplePlayer 15 true).target.health = 0 ∧
    (DamageEntity sampleEnemy10 samplePlayer 15 true).target.deathTimer =
      DEATH_TIME ∧
    (DamageEntity sampleEnemy10 samplePlayer 15 true).target.state =
      EntityState.dead ∧
    (DamageEntity sampleEnemy10 samplePlayer 15 true).target.velocity.y = 0 ∧
    (DamageEntity sampleEnemy10 samplePlayer 15 true).target.grounded = true ∧
    (DamageEntity sampleEnemy10 samplePlayer 15 true).deathCues = 0 := by
  norm_num [DamageEntity, damageApplyHealth, damageSetRecovery,
    damageKnockbackStun, damageTriggerDeath, ApplyKnockback, SafeClamp,
    SafeClampFloat, sampleEnemy10, samplePlayer, zeroEntity, DEATH_TIME,
    INT_MAX, ENEMY_STUN_TIME, ENEMY_RETREAT_TIME, AI_STATE_RETREAT,
    ANIM_HURT, HIT_FRAMES_START, HIT_FRAMES_END, ATTACK_COOLDOWN,
    ENEMY_ATTACK_PUNCH_PROFILE, KNOCKBACK_FORCE, MAX_KNOCKBACK_SPEED,
    ANIM_PUNCH, ENEMY_DAMAGE]

/-! ## Claim C2 -/

/-- C2: any damage application preserves the health invariant
`0 <= health <= maxHealth` (for a target with positive maxHealth). -/
theorem c2_damageEntity_health_invariant (t a : Entity) (dmg : Int)
    (b : Bool) (h0 : 0 ≤ t.health) (h1 : t.health ≤ t.maxHealth)
    (h2 : 0 < t.maxHealth) :
    0 ≤ (DamageEntity t a dmg b).target.health ∧
    (DamageEntity t a dmg b).target.health ≤
      (DamageEntity t a dmg b).target.maxHealth := by
  unfold DamageEntity
  split_ifs with hd
  · exact ⟨h0, h1⟩
  · simp only [damageTriggerDeath_health, damageKnockbackStun_health,
      damageSetRecovery_health, damageTriggerDeath_maxHealth,
      damageKnockbackStun_maxHealth, damageSetRecovery_maxHealth,
      damageApplyHealth_maxHealth]
    unfold damageApplyHealth
    simp only [if_pos h2]
    exact SafeClamp_mem _ _ _ (le_of_lt h2)

/-- Witness for C2 at a concrete input. -/
theorem c2_damageEntity_health_invariant_witness :
    0 ≤ sampleEnemy10.health ∧ sampleEnemy10.health ≤ sampleEnemy10.maxHealth ∧
    0 < sampleEnemy10.maxHealth ∧
    (0 ≤ (DamageEntity sampleEnemy10 samplePlayer 15 true).target.health ∧
      (DamageEntity sampleEnemy10 samplePlayer 15 true).target.health ≤
        (DamageEntity sampleEnemy10 samplePlayer 15 true).target.maxHealth) :=
  ⟨by norm_num [sampleEnemy10, zeroEntity],
   by norm_num [sampleEnemy10, zeroEntity],
   by norm_num [sampleEnemy10, zeroEntity],
   c2_damageEntity_health_invariant sampleEnemy10 samplePlayer 15 true
     (by norm_num [sampleEnemy10, zeroEntity])
     (by norm_num [sampleEnemy10, zeroEntity])
     (by norm_num [sampleEnemy10, zeroEntity])⟩

/-! ## Hit-scan lemmas (for claim C3) -/

@[simp] theorem withFrame_currentFrame (p : Entity) (f : Int) :
    (withFrame p f).anim.currentFrame = f := rfl

@[simp] theorem withFrame_attackHasHit (p : Entity) (f : Int) :
    (withFrame p f).attackHasHit = p.attackHasHit := rfl

@[simp] theorem clampedHitStart_withFrame (p : Entity) (f : Int) :
    clampedHitStart (withFrame p f) = clampedHitStart p := rfl

@[simp] theorem clampedHitEnd_withFrame (p : Entity) (f : Int) :
    clampedHitEnd (withFrame p f) = clampedHitEnd p := rfl

@[simp] theorem ComputeAttackHitbox_withFrame (p : Entity) (f : Int) :
    ComputeAttackHitbox (withFrame p f) = ComputeAttackHitbox p := rfl

/-- The first-hit-wins scan damages exactly the first candidate in
iteration order and leaves every other entry unchanged. -/
theorem hitScan_of_first (hit : Rect) (atk : Entity) (d : Int) (b : Bool) :
    ∀ (l : List Entity) (i : Nat) (e : Entity),
    l.get? i = some e → hitCandidate hit e →
    (∀ j, j < i → ∀ ej, l.get? j = some ej → ¬ hitCandidate hit ej) →
    hitScan hit atk d b l = (l.set i (DamageEntity e atk d b).target, true)
  | [], i, e, hget, _, _ => by simp at hget
  | x :: xs, 0, e, hget, he, _ => by
      simp only [List.get?_cons_zero, Option.some.injEq] at hget
      subst hget
      simp only [hitScan, if_pos he, List.set_cons_zero]
  | x :: xs, (i+1), e, hget, he, hfirst => by
      have hx : ¬ hitCandidate hit x :=
        hfirst 0 (Nat.succ_pos i) x rfl
      have ih := hitScan_of_first hit atk d b xs i e
        (by simpa using hget) he
        (fun j hj ej hje => hfirst (j+1) (by omega) ej (by simpa using hje))
      simp only [hitScan, if_neg hx, ih, List.set_cons_succ]

/-- A player hit-detection pass whose gate and window are satisfied and
that finds its first candidate at index `i` applies `DamageEntity` to
that entry and sets `attackHasHit`. -/
theorem processPlayerHitDetection_hits (p : Entity) (enemies : List Entity)
    (i : Nat) (e : Entity)
    (hatk : p.isAttacking = true) (hnohit : p.attackHasHit = false)
    (hdmg : 0 < p.attackDamage) (htf : 0 < p.anim.totalFrames)
    (hwin1 : clampedHitStart p ≤ p.anim.currentFrame)
    (hwin2 : p.anim.currentFrame ≤ clampedHitEnd p)
    (hget : enemies.get? i = some e)
    (he : hitCandidate (ComputeAttackHitbox p) e)
    (hfirst : ∀ j, j < i → ∀ ej, enemies.get? j = some ej →
      ¬ hitCandidate (ComputeAttackHitbox p) ej) :
    processPlayerHitDetection p enemies =
      ({ p with attackHasHit := true },
       enemies.set i (DamageEntity e p p.attackDamage true).target) := by
  unfold processPlayerHitDetection
  rw [if_pos ⟨hatk, by simp [hnohit], hdmg, htf⟩]
  rw [if_neg (by omega)]
  simp only [hitScan_of_first (ComputeAttackHitbox p) p p.attackDamage true
    enemies i e hget he hfirst, if_pos trivial]

/-- A player hit-detection pass is a no-op once `attackHasHit` is set. -/
theorem processPlayerHitDetection_of_hasHit (p : Entity)
    (enemies : List Entity) (h : p.attackHasHit = true) :
    processPlayerHitDetection p enemies = (p, enemies) := by
  unfold processPlayerHitDetection
  rw [if_neg (fun hc => hc.2.1 h)]

/-- After the hit has landed, the remaining passes of the swing change
nothing: the registry stays fixed and `attackHasHit` stays set. -/
theorem playerSwing_noop (fs : List Int) :
    ∀ (p : Entity) (regs : List Entity), p.attackHasHit = true →
    (fs.foldl (fun st f => processPlayerHitDetection (withFrame st.1 f) st.2)
      (p, regs)).2 = regs ∧
    (fs.foldl (fun st f => processPlayerHitDetection (withFrame st.1 f) st.2)
      (p, regs)).1.attackHasHit = true := by
  induction fs with
  | nil => intro p regs h; exact ⟨rfl, h⟩
  | cons f fs ih =>
      intro p regs h
      have hw : (withFrame p f).attackHasHit = true := h
      rw [List.foldl_cons, processPlayerHitDetection_of_hasHit _ _ hw]
      exact ih (withFrame p f) regs hw

/-- An enemy hit-detection pass whose gate and window are satisfied and
that finds its first candidate at index `i` applies `DamageEntity` to
that entry and sets `attackHasHit`. -/
theorem ProcessEnemyAttack_hits (en : Entity) (players : List Entity)
    (epf : Int) (i : Nat) (e : Entity)
    (hatk : en.isAttacking = true) (hnohit : en.attackHasHit = false)
    (hdmg : 0 < en.attackDamage) (htf : 0 < en.anim.totalFrames)
    (hwin1 : clampedHitStart en ≤ en.anim.currentFrame)
    (hwin2 : en.anim.currentFrame ≤ clampedHitEnd en)
    (hget : players.get? i = some e)
    (he : hitCandidate (ComputeAttackHitbox en) e)
    (hfirst : ∀ j, j < i → ∀ ej, players.get? j = some ej →
      ¬ hitCandidate (ComputeAttackHitbox en) ej) :
    ProcessEnemyAttack en players epf =
      ({ en with attackHasHit := true },
       players.set i (DamageEntity e en en.attackDamage false).target) := by
  unfold ProcessEnemyAttack
  rw [if_neg (by
    push_neg
    exact ⟨by simp [hatk], by simp [hnohit], by omega⟩)]
  rw [if_neg (by omega : ¬ en.anim.totalFrames ≤ 0)]
  rw [if_neg (by omega)]
  simp only [hitScan_of_first (ComputeAttackHitbox en) en en.attackDamage false
    players i e hget he hfirst, if_pos trivial]

/-- An enemy hit-detection pass is a no-op once `attackHasHit` is set. -/
theorem ProcessEnemyAttack_of_hasHit (en : Entity) (players : List Entity)
    (epf : Int) (h : en.attackHasHit = true) :
    ProcessEnemyAttack en players epf = (en, players) := by
  unfold ProcessEnemyAttack
  rw [if_pos (Or.inr (Or.inl h))]

/-- Enemy-swing analogue of `playerSwing_noop`. -/
theorem enemySwing_noop (fs : List Int) (epf : Int) :
    ∀ (en : Entity) (ps : List Entity), en.attackHasHit = true →
    (fs.foldl (fun st f => ProcessEnemyAttack (withFrame st.1 f) st.2 epf)
      (en, ps)).2 = ps ∧
    (fs.foldl (fun st f => ProcessEnemyAttack (withFrame st.1 f) st.2 epf)
      (en, ps)).1.attackHasHit = true := by
  induction fs with
  | nil => intro en ps h; exact ⟨rfl, h⟩
  | cons f fs ih =>
      intro en ps h
      have hw : (withFrame en f).attackHasHit = true := h
      rw [List.foldl_cons, ProcessEnemyAttack_of_hasHit _ _ _ hw]
      exact ih (withFrame en f) ps hw

/-! ## Claim C3 -/

/-- C3: over a whole swing whose hit window covers every listed frame and
whose attack hitbox intersects a living opposing actor, damage is applied
exactly once — the registry after the swing differs from the initial one
by a single `DamageEntity` application to the first intersecting living
opposing actor in iteration order, `attackHasHit` is set by that first
hit, and no later pass of the swing changes any opposing actor.  Both the
player-vs-enemies pass and the enemy-vs-players pass are covered. -/
theorem c3_at_most_one_hit_per_swing :
    (∀ (p : Entity) (enemies : List Entity) (f : Int) (rest : List Int)
        (i : Nat) (e : Entity),
      p.isAttacking = true → p.attackHasHit = false → 0 < p.attackDamage →
      0 < p.anim.totalFrames →
      (∀ f', f' ∈ f :: rest →
        clampedHitStart p ≤ f' ∧ f' ≤ clampedHitEnd p) →
      enemies.get? i = some e →
      hitCandidate (ComputeAttackHitbox p) e →
      (∀ j, j < i → ∀ ej, enemies.get? j = some ej →
        ¬ hitCandidate (ComputeAttackHitbox p) ej) →
      (runPlayerSwing p (f :: rest) enemies).2 =
        enemies.set i
          (DamageEntity e (withFrame p f) p.attackDamage true).target ∧
      (runPlayerSwing p (f :: rest) enemies).1.attackHasHit = true) ∧
    (∀ (en : Entity) (players : List Entity) (epf : Int) (f : Int)
        (rest : List Int) (i : Nat) (e : Entity),
      en.isAttacking = true → en.attackHasHit = false → 0 < en.attackDamage →
      0 < en.anim.totalFrames →
      (∀ f', f' ∈ f :: rest →
        clampedHitStart en ≤ f' ∧ f' ≤ clampedHitEnd en) →
      players.get? i = some e →
      hitCandidate (ComputeAttackHitbox en) e →
      (∀ j, j < i → ∀ ej, players.get? j = some ej →
        ¬ hitCandidate (ComputeAttackHitbox en) ej) →
      (runEnemySwing en (f :: rest) players epf).2 =
        players.set i
          (DamageEntity e (withFrame en f) en.attackDamage false).target ∧
      (runEnemySwing en (f :: rest) players epf).1.attackHasHit = true) := by
  constructor
  · intro p enemies f rest i e hatk hnohit hdmg htf hwin hget he hfirst
    have hpass := processPlayerHitDetection_hits (withFrame p f) enemies i e
      hatk hnohit hdmg htf
      (by simpa using (hwin f (by simp)).1)
      (by simpa using (hwin f (by simp)).2)
      hget (by simpa using he)
      (fun j hj ej hje => by simpa using hfirst j hj ej hje)
    unfold runPlayerSwing
    rw [List.foldl_cons, hpass]
    have hnoop := playerSwing_noop rest
      { withFrame p f with attackHasHit := true }
      (enemies.set i (DamageEntity e (withFrame p f) p.attackDamage true).target)
      rfl
    exact ⟨hnoop.1, hnoop.2⟩
  · intro en players epf f rest i e hatk hnohit hdmg htf hwin hget he hfirst
    have hpass := ProcessEnemyAttack_hits (withFrame en f) players epf i e
      hatk hnohit hdmg htf
      (by simpa using (hwin f (by simp)).1)
      (by simpa using (hwin f (by simp)).2)
      hget (by simpa using he)
      (fun j hj ej hje => by simpa using hfirst j hj ej hje)
    unfold runEnemySwing
    rw [List.foldl_cons, hpass]
    have hnoop := enemySwing_noop rest epf
      { withFrame en f with attackHasHit := true }
      (players.set i (DamageEntity e (withFrame en f) en.attackDamage false).target)
      rfl
    exact ⟨hnoop.1, hnoop.2⟩

/-- Witness for C3 at a concrete two-frame swing against one defender. -/
theorem c3_at_most_one_hit_per_swing_witness :
    sampleAttacker.isAttacking = true ∧
    sampleAttacker.attackHasHit = false ∧
    0 < sampleAttacker.attackDamage ∧
    0 < sampleAttacker.anim.totalFrames ∧
    (∀ f', f' ∈ ([1, 2] : List Int) →
      clampedHitStart sampleAttacker ≤ f' ∧
      f' ≤ clampedHitEnd sampleAttacker) ∧
    [sampleDefender].get? 0 = some sampleDefender ∧
    hitCandidate (ComputeAttackHitbox sampleAttacker) sampleDefender ∧
    ((runPlayerSwing sampleAttacker [1, 2] [sampleDefender]).2 =
        [sampleDefender].set 0
          (DamageEntity sampleDefender (withFrame sampleAttacker 1)
            sampleAttacker.attackDamage true).target ∧
      (runPlayerSwing sampleAttacker [1, 2]
        [sampleDefender]).1.attackHasHit = true) ∧
    ((runEnemySwing sampleAttacker [1, 2] [sampleDefender] 3).2 =
        [sampleDefender].set 0
          (DamageEntity sampleDefender (withFrame sampleAttacker 1)
            sampleAttacker.attackDamage false).target ∧
      (runEnemySwing sampleAttacker [1, 2]
        [sampleDefender] 3).1.attackHasHit = true) := by
  have hwin : ∀ f', f' ∈ ([1, 2] : List Int) →
      clampedHitStart sampleAttacker ≤ f' ∧
      f' ≤ clampedHitEnd sampleAttacker := by
    intro f' hf'
    simp only [List.mem_cons, List.mem_singleton, List.not_mem_nil,
      or_false] at hf'
    rcases hf' with h | h <;> subst h <;>
      norm_num [clampedHitStart, clampedHitEnd, SafeClamp, sampleAttacker,
        zeroEntity, HIT_FRAMES_START, HIT_FRAMES_END]
  have hcand : hitCandidate (ComputeAttackHitbox sampleAttacker)
      sampleDefender := by
    constructor
    · norm_num [sampleDefender, zeroEntity]
    · unfold CheckCollisionRecs ComputeAttackHitbox
      norm_num [sampleAttacker, sampleDefender, zeroEntity, ATTACK_EXTEND]
  have hfirst0 : ∀ j, j < 0 → ∀ ej,
      ([sampleDefender] : List Entity).get? j = some ej →
      ¬ hitCandidate (ComputeAttackHitbox sampleAttacker) ej :=
    fun j hj => absurd hj (Nat.not_lt_zero j)
  refine ⟨rfl, rfl, by norm_num [sampleAttacker, zeroEntity],
    by norm_num [sampleAttacker, zeroEntity], hwin, rfl, hcand, ?_, ?_⟩
  · exact c3_at_most_one_hit_per_swing.1 sampleAttacker [sampleDefender] 1 [2]
      0 sampleDefender rfl rfl
      (by norm_num [sampleAttacker, zeroEntity])
      (by norm_num [sampleAttacker, zeroEntity]) hwin rfl hcand hfirst0
  · exact c3_at_most_one_hit_per_swing.2 sampleAttacker [sampleDefender] 3 1
      [2] 0 sampleDefender rfl rfl
      (by norm_num [sampleAttacker, zeroEntity])
      (by norm_num [sampleAttacker, zeroEntity]) hwin rfl hcand hfirst0

/-! ## Claim C4 -/

/-- C4 counterexample: the stun a player-damaged enemy receives
(`ENEMY_STUN_TIME` = 0.45 s) is not shorter than the stun an
enemy-damaged player receives (`PLAYER_STUN_TIME` = 0.35 s) — it is
longer. -/
theorem c4_enemy_stun_not_shorter_counterexample :
    (DamageEntity sampleEnemy samplePlayer 5 true).target.stunTimer =
      ENEMY_STUN_TIME ∧
    (DamageEntity samplePlayer sampleEnemy 5 false).target.stunTimer =
      PLAYER_STUN_TIME ∧
    ¬(ENEMY_STUN_TIME < PLAYER_STUN_TIME) := by
  refine ⟨?_, ?_, by norm_num [ENEMY_STUN_TIME, PLAYER_STUN_TIME]⟩
  · unfold DamageEntity
    rw [if_neg (by norm_num)]
    simp only
    rw [damageTriggerDeath_stunTimer_of_pos _
        (by norm_num [damageApplyHealth, sampleEnemy, zeroEntity, SafeClamp,
          INT_MAX])]
    exact damageKnockbackStun_true_stunTimer _ _
  · unfold DamageEntity
    rw [if_neg (by norm_num)]
    simp only
    rw [damageTriggerDeath_stunTimer_of_pos _
        (by norm_num [damageApplyHealth, samplePlayer, zeroEntity, SafeClamp,
          INT_MAX])]
    exact damageKnockbackStun_false_stunTimer _ _

/-- C4 (amended): damaging an enemy as the human player forces the
retreat AI disposition with the fixed retreat duration; the stun applied
to the surviving target is `ENEMY_STUN_TIME`, which is longer (not
shorter) than the `PLAYER_STUN_TIME` a surviving player receives from an
enemy hit (a killing hit zeroes the stun instead). -/
theorem c4_player_attacker_forces_retreat_with_longer_stun
    (t a : Entity) (dmg : Int) (hd : 0 < dmg) :
    (DamageEntity t a dmg true).target.aiState = AI_STATE_RETREAT ∧
    (DamageEntity t a dmg true).target.aiTimer = ENEMY_RETREAT_TIME ∧
    (DamageEntity t a dmg true).target.wasHurt = true ∧
    (0 < (DamageEntity t a dmg true).target.health →
      (DamageEntity t a dmg true).target.stunTimer = ENEMY_STUN_TIME) ∧
    (0 < (DamageEntity t a dmg false).target.health →
      (DamageEntity t a dmg false).target.stunTimer = PLAYER_STUN_TIME) ∧
    PLAYER_STUN_TIME < ENEMY_STUN_TIME := by
  have hnd : ¬(dmg ≤ 0) := by omega
  unfold DamageEntity
  simp only [if_neg hnd]
  simp only [damageTriggerDeath_aiState, damageTriggerDeath_aiTimer,
    damageTriggerDeath_wasHurt, damageKnockbackStun_true_aiState,
    damageKnockbackStun_true_aiTimer, damageKnockbackStun_true_wasHurt]
  refine ⟨trivial, trivial, trivial, ?_, ?_, by
    norm_num [PLAYER_STUN_TIME, ENEMY_STUN_TIME]⟩
  · intro hpos
    rw [damageTriggerDeath_health] at hpos
    rw [damageTriggerDeath_stunTimer_of_pos _ hpos]
    exact damageKnockbackStun_true_stunTimer _ _
  · intro hpos
    rw [damageTriggerDeath_health] at hpos
    rw [damageTriggerDeath_stunTimer_of_pos _ hpos]
    exact damageKnockbackStun_false_stunTimer _ _

/-! ## Claim C5 -/

/-- A clamp whose result is strictly inside the clamping interval did not
move the value. -/
theorem SafeClampFloat_eq_self_of_strict (v lo hi : ℚ)
    (h1 : lo < SafeClampFloat v lo hi) (h2 : SafeClampFloat v lo hi < hi) :
    SafeClampFloat v lo hi = v := by
  unfold SafeClampFloat at *
  split_ifs at * <;> first | rfl | linarith

/-- C5 (amended): for an actor that is not size-scaled (no boss hitbox),
when the horizontal pass resolves against a solid tile with nonzero
horizontal movement and no static-collider override, the vertical pass
resolves against a solid tile with no static-collider override, and the
world-bounds clamp leaves the resolved position strictly inside the
world, the final hitbox does not overlap either resolved tile.  (The
unamended claim fails for a boss-scaled actor, whose final hitbox is
offset from the swept box, and at positions where the world-bounds clamp
pushes the actor back into the tile.) -/
theorem c5_no_tile_penetration_for_unscaled_actor
    (l : Level) (e : Entity) (dt : ℚ) (htx hty vtx vty : Int)
    (hscale : e.maxHealth ≤ ENEMY_MAX_HEALTH)
    (hht : (UpdatePhysics l e dt).hTile = some (htx, hty))
    (hhc : (UpdatePhysics l e dt).hCollider = none)
    (hvt : (UpdatePhysics l e dt).vTile = some (vtx, vty))
    (hvc : (UpdatePhysics l e dt).vCollider = none)
    (hdx : e.velocity.x * dt ≠ 0)
    (hx0 : 0 < (UpdatePhysics l e dt).entity.position.x)
    (hx1 : (UpdatePhysics l e dt).entity.position.x <
      worldMaxX l (PLAYER_WIDTH * entityScale e))
    (hy0 : 0 < (UpdatePhysics l e dt).entity.position.y)
    (hy1 : (UpdatePhysics l e dt).entity.position.y < GROUND_Y) :
    ¬ CheckCollisionRecs (UpdatePhysics l e dt).entity.hitbox
        (tileRect htx hty) ∧
    ¬ CheckCollisionRecs (UpdatePhysics l e dt).entity.hitbox
        (tileRect vtx vty) := by
  have hs1 : entityScale e = 1 := by
    unfold entityScale ENEMY_MAX_HEALTH
    unfold ENEMY_MAX_HEALTH at hscale
    rw [if_neg (by omega)]
  simp only [UpdatePhysics, horizPass, vertPass, applyHoriz, applyVert,
    clampWorld, setHitbox, physGravityReset, hs1, mul_one,
    Bool.false_eq_true, if_false, ite_false, ite_true]
    at hht hhc hvt hvc hx0 hx1 hy0 hy1 ⊢
  rw [hht, hhc] at hvt hvc hx0 hx1 hy0 hy1 ⊢
  simp only [snapH, snapHCol] at hvt hvc hx0 hx1 hy0 hy1 ⊢
  simp only [Option.isSome_some, Option.isSome_none, Bool.or_false,
    eq_self_iff_true, if_true, ite_true] at hvt hvc hy0 hy1 ⊢
  rw [hvt, hvc] at hy0 hy1 ⊢
  simp only [snapV, snapVCol] at hy0 hy1 ⊢
  rw [SafeClampFloat_eq_self_of_strict _ _ _ hx0 hx1,
    SafeClampFloat_eq_self_of_strict _ _ _ hy0 hy1]
  simp only [CheckCollisionRecs, tileRect, TILE_SIZE, PLAYER_WIDTH,
    PLAYER_HEIGHT, not_and, not_lt]
  rcases hdx.lt_or_lt with hdxn | hdxp
  · rw [if_neg (by linarith : ¬ ((0:ℚ) < e.velocity.x * dt)), if_pos hdxn]
    split_ifs with hdy <;>
      exact ⟨fun u1 u2 u3 => by linarith,
             fun u1 u2 u3 => by linarith⟩
  · rw [if_pos hdxp]
    split_ifs with hdy <;>
      exact ⟨fun u1 u2 u3 => by linarith,
             fun u1 u2 u3 => by linarith⟩

/-- Scan ranges of the counterexample level evaluate to columns/rows
3 through 8. -/
theorem cex_ranges : intRange 3 9 = [3, 4, 5, 6, 7, 8] := by decide

/-- Row-major scan order over the counterexample window. -/
theorem cex_pairs : scanPairs [3, 4, 5, 6, 7, 8] [3, 4, 5, 6, 7, 8] =
    [(3, 3), (4, 3), (5, 3), (6, 3), (7, 3), (8, 3), (3, 4), (4, 4), (5, 4),
     (6, 4), (7, 4), (8, 4), (3, 5), (4, 5), (5, 5), (6, 5), (7, 5), (8, 5),
     (3, 6), (4, 6), (5, 6), (6, 6), (7, 6), (8, 6), (3, 7), (4, 7), (5, 7),
     (6, 7), (7, 7), (8, 7), (3, 8), (4, 8), (5, 8), (6, 8), (7, 8), (8, 8)]
    := by decide

/-- The boss's horizontal pass resolves against the wall tile (8, 4). -/
theorem cex_htile :
    horizTileHit cexLevel 55 60 (141/2) (141/2) 65 = some (8, 4) := by
  unfold horizTileHit
  rw [if_pos (by norm_num [levelHasTileMap, physCols, physRows,
    LevelTileColumns, LevelRowCount, cexLevel])]
  norm_num [levelHasTileMap, physCols, physRows, LevelTileColumns,
    LevelRowCount, cexLevel, truncToInt, SafeClamp, TILE_SIZE]
  rw [cex_ranges, cex_pairs]
  norm_num [firstSat, solidTileHit, tileAt, cexLevel, tileRect,
    CheckCollisionRecs, TILE_SIZE]

/-- The boss's vertical pass resolves against the ground tile (3, 8). -/
theorem cex_vtile :
    vertTileHit cexLevel (115/2) 60 (141/2) (141/2) 70 = some (3, 8) := by
  unfold vertTileHit
  rw [if_pos (by norm_num [levelHasTileMap, physCols, physRows,
    LevelTileColumns, LevelRowCount, cexLevel])]
  norm_num [levelHasTileMap, physCols, physRows, LevelTileColumns,
    LevelRowCount, cexLevel, truncToInt, SafeClamp, TILE_SIZE]
  rw [cex_ranges, cex_pairs]
  norm_num [firstSat, solidTileHit, tileAt, cexLevel, tileRect,
    CheckCollisionRecs, TILE_SIZE]

theorem cexLevel_colliders : cexLevel.colliders = [] := rfl

theorem cexLevel_width : cexLevel.width = 2000 := rfl

/-- C5 counterexample: a boss-scaled actor (1.5x hitbox) walking right
and falling resolves its horizontal pass against the wall tile (8, 4) and
its vertical pass against the ground tile (3, 8), yet its final hitbox -
recentered over the nominal unscaled footprint - still overlaps the wall
tile by 11.75 pixels. -/
theorem c5_boss_final_hitbox_overlaps_resolved_tile :
    (UpdatePhysics cexLevel cexBoss (1/10)).hTile = some (8, 4) ∧
    (UpdatePhysics cexLevel cexBoss (1/10)).hCollider = none ∧
    (UpdatePhysics cexLevel cexBoss (1/10)).vTile = some (3, 8) ∧
    (UpdatePhysics cexLevel cexBoss (1/10)).vCollider = none ∧
    CheckCollisionRecs (UpdatePhysics cexLevel cexBoss (1/10)).entity.hitbox
      (tileRect 8 4) := by
  norm_num [UpdatePhysics, horizPass, vertPass, applyHoriz, applyVert,
    clampWorld, setHitbox, physGravityReset, entityScale, cexBoss, zeroEntity,
    ENEMY_MAX_HEALTH, cex_htile, cex_vtile, SafeClampFloat, worldMaxX,
    snapH, snapHCol, snapV, snapVCol, firstSat, cexLevel_colliders,
    cexLevel_width, PLAYER_WIDTH, PLAYER_HEIGHT, GRAVITY, GROUND_Y,
    SCREEN_WIDTH, TILE_SIZE, tileRect, CheckCollisionRecs]

theorem wit_ranges : intRange 5 9 = [5, 6, 7, 8] := by decide

theorem wit_pairs : scanPairs [5, 6, 7, 8] [5, 6, 7, 8] =
    [(5, 5), (6, 5), (7, 5), (8, 5), (5, 6), (6, 6), (7, 6), (8, 6),
     (5, 7), (6, 7), (7, 7), (8, 7), (5, 8), (6, 8), (7, 8), (8, 8)] := by
  decide

theorem wit_htile :
    horizTileHit witLevel 85 85 47 47 95 = some (8, 6) := by
  unfold horizTileHit
  rw [if_pos (by norm_num [levelHasTileMap, physCols, physRows,
    LevelTileColumns, LevelRowCount, witLevel])]
  norm_num [levelHasTileMap, physCols, physRows, LevelTileColumns,
    LevelRowCount, witLevel, truncToInt, SafeClamp, TILE_SIZE]
  rw [wit_ranges, wit_pairs]
  norm_num [firstSat, solidTileHit, tileAt, witLevel, tileRect,
    CheckCollisionRecs, TILE_SIZE]

theorem wit_vtile :
    vertTileHit witLevel 81 85 47 47 95 = some (5, 8) := by
  unfold vertTileHit
  rw [if_pos (by norm_num [levelHasTileMap, physCols, physRows,
    LevelTileColumns, LevelRowCount, witLevel])]
  norm_num [levelHasTileMap, physCols, physRows, LevelTileColumns,
    LevelRowCount, witLevel, truncToInt, SafeClamp, TILE_SIZE]
  rw [wit_ranges, wit_pairs]
  norm_num [firstSat, solidTileHit, tileAt, witLevel, tileRect,
    CheckCollisionRecs, TILE_SIZE]

theorem witLevel_colliders : witLevel.colliders = [] := rfl

theorem witLevel_width : witLevel.width = 2000 := rfl

theorem wit_facts :
    (UpdatePhysics witLevel witActor (1/10)).hTile = some (8, 6) ∧
    (UpdatePhysics witLevel witActor (1/10)).hCollider = none ∧
    (UpdatePhysics witLevel witActor (1/10)).vTile = some (5, 8) ∧
    (UpdatePhysics witLevel witActor (1/10)).vCollider = none ∧
    (UpdatePhysics witLevel witActor (1/10)).entity.position.x = 81 ∧
    (UpdatePhysics witLevel witActor (1/10)).entity.position.y = 81 := by
  norm_num [UpdatePhysics, horizPass, vertPass, applyHoriz, applyVert,
    clampWorld, setHitbox, physGravityReset, entityScale, witActor,
    zeroEntity, ENEMY_MAX_HEALTH, wit_htile, wit_vtile, SafeClampFloat,
    worldMaxX, snapH, snapHCol, snapV, snapVCol, firstSat,
    witLevel_colliders, witLevel_width, PLAYER_WIDTH, PLAYER_HEIGHT,
    GRAVITY, GROUND_Y, SCREEN_WIDTH, TILE_SIZE]

/-- Witness for C5 (amended) at a concrete standard-size actor. -/
theorem c5_no_tile_penetration_for_unscaled_actor_witness :
    witActor.maxHealth ≤ ENEMY_MAX_HEALTH ∧
    (UpdatePhysics witLevel witActor (1/10)).hTile = some (8, 6) ∧
    (UpdatePhysics witLevel witActor (1/10)).hCollider = none ∧
    (UpdatePhysics witLevel witActor (1/10)).vTile = some (5, 8) ∧
    (UpdatePhysics witLevel witActor (1/10)).vCollider = none ∧
    witActor.velocity.x * (1/10) ≠ 0 ∧
    0 < (UpdatePhysics witLevel witActor (1/10)).entity.position.x ∧
    (UpdatePhysics witLevel witActor (1/10)).entity.position.x <
      worldMaxX witLevel (PLAYER_WIDTH * entityScale witActor) ∧
    0 < (UpdatePhysics witLevel witActor (1/10)).entity.position.y ∧
    (UpdatePhysics witLevel witActor (1/10)).entity.position.y < GROUND_Y ∧
    (¬ CheckCollisionRecs (UpdatePhysics witLevel witActor (1/10)).entity.hitbox
        (tileRect 8 6) ∧
     ¬ CheckCollisionRecs (UpdatePhysics witLevel witActor (1/10)).entity.hitbox
        (tileRect 5 8)) := by
  obtain ⟨h1, h2, h3, h4, h5, h6⟩ := wit_facts
  have hsc : witActor.maxHealth ≤ ENEMY_MAX_HEALTH := by
    norm_num [witActor, zeroEntity, ENEMY_MAX_HEALTH]
  have hdx : witActor.velocity.x * (1/10) ≠ (0:ℚ) := by
    norm_num [witActor, zeroEntity]
  have hx0 : 0 < (UpdatePhysics witLevel witActor (1/10)).entity.position.x := by
    rw [h5]; norm_num
  have hx1 : (UpdatePhysics witLevel witActor (1/10)).entity.position.x <
      worldMaxX witLevel (PLAYER_WIDTH * entityScale witActor) := by
    rw [h5]
    norm_num [worldMaxX, witLevel_width, entityScale, witActor, zeroEntity,
      ENEMY_MAX_HEALTH, PLAYER_WIDTH, SCREEN_WIDTH]
  have hy0 : 0 < (UpdatePhysics witLevel witActor (1/10)).entity.position.y := by
    rw [h6]; norm_num
  have hy1 : (UpdatePhysics witLevel witActor (1/10)).entity.position.y <
      GROUND_Y := by
    rw [h6]; norm_num [GROUND_Y]
  exact ⟨hsc, h1, h2, h3, h4, hdx, hx0, hx1, hy0, hy1,
    c5_no_tile_penetration_for_unscaled_actor witLevel witActor (1/10) 8 6 5 8
      hsc h1 h2 h3 h4 hdx hx0 hx1 hy0 hy1⟩

/-- Witness for C4 (amended) at a concrete input. -/
theorem c4_player_attacker_forces_retreat_with_longer_stun_witness :
    0 < (5 : Int) ∧
    ((DamageEntity sampleEnemy samplePlayer 5 true).target.aiState =
        AI_STATE_RETREAT ∧
      (DamageEntity sampleEnemy samplePlayer 5 true).target.aiTimer =
        ENEMY_RETREAT_TIME ∧
      (DamageEntity sampleEnemy samplePlayer 5 true).target.wasHurt = true ∧
      (0 < (DamageEntity sampleEnemy samplePlayer 5 true).target.health →
        (DamageEntity sampleEnemy samplePlayer 5 true).target.stunTimer =
          ENEMY_STUN_TIME) ∧
      (0 < (DamageEntity sampleEnemy samplePlayer 5 false).target.health →
        (DamageEntity sampleEnemy samplePlayer 5 false).target.stunTimer =
          PLAYER_STUN_TIME) ∧
      PLAYER_STUN_TIME < ENEMY_STUN_TIME) :=
  ⟨by norm_num,
   c4_player_attacker_forces_retreat_with_longer_stun sampleEnemy samplePlayer
     5 (by norm_num)⟩

/-! ## Registry lemmas and claims C6, C7, C10 -/

theorem getD_set_ne {α : Type} (l : List α) (i j : Nat) (a d : α)
    (h : i ≠ j) : (l.set i a).getD j d = l.getD j d := by
  induction l generalizing i j with
  | nil => simp
  | cons x xs ih =>
    cases i with
    | zero => cases j with
      | zero => omega
      | succ j => simp [List.set, List.getD]
    | succ i => cases j with
      | zero => simp [List.set, List.getD]
      | succ j => simpa [List.set, List.getD] using ih i j (by omega)

theorem getD_set_self {α : Type} (l : List α) (i : Nat) (a d : α)
    (h : i < l.length) : (l.set i a).getD i d = a := by
  induction l generalizing i with
  | nil => simp at h
  | cons x xs ih =>
    cases i with
    | zero => simp [List.set, List.getD]
    | succ i => simpa [List.set, List.getD] using ih i (by simpa using h)

/-- Appending one initialized slot at the count preserves the registry
invariant. -/
theorem regInv_push (r : Registry) (e : Entity) (h : RegInv r)
    (hcnt : r.activeEnemies < MAX_ENEMIES) :
    RegInv ⟨r.slots.set r.activeEnemies (some e), r.activeEnemies + 1⟩ := by
  obtain ⟨hcap, hlen, hocc⟩ := h
  unfold MAX_ENEMIES at *
  refine ⟨?_, ?_, ?_⟩
  · show r.activeEnemies + 1 ≤ 10
    omega
  · show (r.slots.set r.activeEnemies (some e)).length = 10
    simp [hlen]
  · intro j hj
    have hj2 : j < r.activeEnemies + 1 := hj
    show ((r.slots.set r.activeEnemies (some e)).getD j none).isSome = true
    rcases Nat.lt_succ_iff_lt_or_eq.mp hj2 with hj' | hj'
    · rw [getD_set_ne _ _ _ _ _ (by omega)]
      exact hocc j hj'
    · subst hj'
      rw [getD_set_self _ _ _ _ (by omega)]
      rfl

theorem regInv_clear : RegInv ClearEnemies := by
  refine ⟨?_, ?_, ?_⟩
  · show (0 : Nat) ≤ MAX_ENEMIES
    norm_num [MAX_ENEMIES]
  · show (List.replicate MAX_ENEMIES (none : Option Entity)).length = MAX_ENEMIES
    simp
  · intro j hj
    have hj2 : j < 0 := hj
    omega

theorem regInv_step (r : Registry) (op : RegOp) (h : RegInv r) :
    RegInv (applyRegOp r op) := by
  cases op with
  | clear => exact regInv_clear
  | tick mc pos fr =>
    show RegInv (spawnTick r mc pos fr)
    unfold spawnTick
    split_ifs with hg
    · exact regInv_push r _ h hg.2
    · exact h
  | wave pos fr =>
    show RegInv (spawnWaveOne r pos fr)
    unfold spawnWaveOne
    split_ifs with hg
    · exact regInv_push r _ h hg
    · exact h
  | boss pos fr hp =>
    show RegInv (spawnBoss r pos fr hp)
    unfold spawnBoss
    split_ifs with hg
    · exact regInv_push r _ h hg
    · exact h
  | remove i =>
    show RegInv (RemoveDeadEnemy r i).1
    obtain ⟨hcap, hlen, hocc⟩ := h
    unfold RemoveDeadEnemy
    split_ifs with hg
    · exact ⟨hcap, hlen, hocc⟩
    · push_neg at hg
      simp only
      split_ifs with hlt
      · refine ⟨?_, ?_, ?_⟩
        · show r.activeEnemies - 1 ≤ MAX_ENEMIES
          unfold MAX_ENEMIES at *
          omega
        · show (r.slots.set i.toNat
            (r.slots.getD (r.activeEnemies - 1) none)).length = MAX_ENEMIES
          simp [hlen]
        · intro j hj
          have hj2 : j < r.activeEnemies - 1 := hj
          show ((r.slots.set i.toNat
            (r.slots.getD (r.activeEnemies - 1) none)).getD j none).isSome = true
          by_cases hji : j = i.toNat
          · subst hji
            rw [getD_set_self _ _ _ _ (by unfold MAX_ENEMIES at *; omega)]
            exact hocc (r.activeEnemies - 1) (by omega)
          · rw [getD_set_ne _ _ _ _ _ (by omega)]
            exact hocc j (by omega)
      · exact ⟨by
          show r.activeEnemies - 1 ≤ MAX_ENEMIES
          unfold MAX_ENEMIES at *
          omega, hlen,
          fun j hj => hocc j (by
            have hj2 : j < r.activeEnemies - 1 := hj
            omega)⟩

theorem regInv_fold (ops : List RegOp) :
    ∀ r : Registry, RegInv r → RegInv (ops.foldl applyRegOp r) := by
  induction ops with
  | nil => intro r h; exact h
  | cons op ops ih =>
    intro r h
    rw [List.foldl_cons]
    exact ih _ (regInv_step r op h)

/-- C7: starting from the cleared registry, any sequence of
level-initialization spawns, per-tick spawns, boss spawns and
dead-enemy removals preserves `0 <= activeEnemies <= MAX_ENEMIES` with
every index in `[0, activeEnemies)` referring to an initialized,
occupied slot (no gaps); and removal swaps the last active slot into the
removed index. -/
theorem c7_registry_density :
    (∀ ops : List RegOp, RegInv (ops.foldl applyRegOp ClearEnemies)) ∧
    (∀ (r : Registry) (i : Int), RegInv r → 0 ≤ i →
      i < (r.activeEnemies : Int) →
      (RemoveDeadEnemy r i).1.activeEnemies = r.activeEnemies - 1 ∧
      (i.toNat < r.activeEnemies - 1 →
        (RemoveDeadEnemy r i).1.slots.getD i.toNat none =
          r.slots.getD (r.activeEnemies - 1) none)) := by
  constructor
  · intro ops
    exact regInv_fold ops ClearEnemies regInv_clear
  · intro r i hinv h0 hi
    obtain ⟨hcap, hlen, hocc⟩ := hinv
    unfold RemoveDeadEnemy
    rw [if_neg (by omega)]
    simp only
    constructor
    · trivial
    · intro hlt
      rw [if_pos hlt]
      show (r.slots.set i.toNat (r.slots.getD (r.activeEnemies - 1) none)).getD
        i.toNat none = r.slots.getD (r.activeEnemies - 1) none
      rw [getD_set_self _ _ _ _ (by unfold MAX_ENEMIES at *; omega)]

/-- Witness for C7 at a concrete registry and op sequence. -/
theorem c7_registry_density_witness :
    RegInv twoEnemyReg ∧ (0 : Int) ≤ 0 ∧
    (0 : Int) < (twoEnemyReg.activeEnemies : Int) ∧
    RegInv ([RegOp.wave ⟨360, 401⟩ 4, RegOp.remove 0].foldl applyRegOp
      ClearEnemies) ∧
    (RemoveDeadEnemy twoEnemyReg 0).1.activeEnemies =
      twoEnemyReg.activeEnemies - 1 ∧
    ((0 : Int).toNat < twoEnemyReg.activeEnemies - 1 →
      (RemoveDeadEnemy twoEnemyReg 0).1.slots.getD (0 : Int).toNat none =
        twoEnemyReg.slots.getD (twoEnemyReg.activeEnemies - 1) none) := by
  have hinv : RegInv twoEnemyReg := by
    refine ⟨by norm_num [twoEnemyReg, MAX_ENEMIES],
      by norm_num [twoEnemyReg, MAX_ENEMIES], ?_⟩
    intro j hj
    have hj2 : j < 2 := hj
    interval_cases j <;> rfl
  have h2 := c7_registry_density.2 twoEnemyReg 0 hinv (by norm_num)
    (by norm_num [twoEnemyReg])
  exact ⟨hinv, by norm_num, by norm_num [twoEnemyReg],
    c7_registry_density.1 _, h2.1, h2.2⟩

/-- C6 counterexample: the player grabs the enemy in slot 0; that enemy
dies and is removed, which swaps the living slot-1 enemy into slot 0; on
the player's next update the grab reference is NOT cleared — it still
reads 0 and now silently refers to the other enemy. -/
theorem c6_swap_keeps_stale_grab_counterexample :
    (regGet twoEnemyReg 0).health = 0 ∧
    0 < (regGet twoEnemyReg 0).deathTimer ∧
    grabbingPlayer.grabbedEnemyIndex = 0 ∧
    (RemoveDeadEnemy twoEnemyReg 0).1.activeEnemies = 1 ∧
    0 < (regGet (RemoveDeadEnemy twoEnemyReg 0).1 0).health ∧
    (regGet (RemoveDeadEnemy twoEnemyReg 0).1 0).position.x = 300 ∧
    (grabRefresh grabbingPlayer
      (RemoveDeadEnemy twoEnemyReg 0).1).1.grabbedEnemyIndex = 0 ∧
    ((0 : Int) = -1 → False) := by
  norm_num [regGet, twoEnemyReg, dyingEnemy, secondEnemy, sampleEnemy,
    zeroEntity, grabbingPlayer, samplePlayer, RemoveDeadEnemy, grabRefresh,
    ENEMY_MAX_HEALTH, AI_STATE_IDLE]

/-- C6 (amended): the grab-maintenance block clears the reference
whenever it no longer denotes an in-range slot holding a living enemy —
in particular when the removed grabbed enemy occupied the last active
slot — and in the stale case it touches neither the player's registry
nor any out-of-range slot; but when swap-removal moves another living
enemy into the grabbed slot, the reference is retained and silently
refers to that enemy. -/
theorem c6_grab_reference_revalidation (p : Entity) (r : Registry)
    (hg : p.grabbedEnemyIndex ≠ -1) :
    (¬(0 ≤ p.grabbedEnemyIndex ∧
        p.grabbedEnemyIndex < (r.activeEnemies : Int) ∧
        0 < (regGet r p.grabbedEnemyIndex.toNat).health) →
      grabRefresh p r =
        ({ p with grabbedEnemyIndex := -1, state := EntityState.idle }, r)) ∧
    (p.grabbedEnemyIndex = (r.activeEnemies : Int) - 1 →
      (grabRefresh p
        (RemoveDeadEnemy r p.grabbedEnemyIndex).1).1.grabbedEnemyIndex = -1 ∧
      (grabRefresh p (RemoveDeadEnemy r p.grabbedEnemyIndex).1).2 =
        (RemoveDeadEnemy r p.grabbedEnemyIndex).1) := by
  constructor
  · intro hbad
    unfold grabRefresh
    rw [if_pos hg, if_neg hbad]
  · intro hlast
    have hcnt : 1 ≤ r.activeEnemies := by
      rcases Nat.eq_zero_or_pos r.activeEnemies with h0 | h1
      · rw [h0] at hlast
        norm_num at hlast
        exact absurd hlast hg
      · exact h1
    have hrm : (RemoveDeadEnemy r p.grabbedEnemyIndex).1 =
        ⟨r.slots, r.activeEnemies - 1⟩ := by
      unfold RemoveDeadEnemy
      rw [if_neg (by omega)]
      simp only
      rw [if_neg (by omega)]
    rw [hrm]
    unfold grabRefresh
    rw [if_pos hg, if_neg (by
      show ¬(0 ≤ p.grabbedEnemyIndex ∧
        p.grabbedEnemyIndex < ((r.activeEnemies - 1 : Nat) : Int) ∧ _)
      push_neg
      intro _
      intro hlt
      exfalso
      omega)]
    exact ⟨rfl, rfl⟩

/-- Witness for C6 (amended) at a concrete player and registry. -/
theorem c6_grab_reference_revalidation_witness :
    grabbingPlayer.grabbedEnemyIndex ≠ -1 ∧
    ¬(0 ≤ grabbingPlayer.grabbedEnemyIndex ∧
        grabbingPlayer.grabbedEnemyIndex < (dyingReg.activeEnemies : Int) ∧
        0 < (regGet dyingReg grabbingPlayer.grabbedEnemyIndex.toNat).health) ∧
    grabbingPlayer.grabbedEnemyIndex = (dyingReg.activeEnemies : Int) - 1 ∧
    grabRefresh grabbingPlayer dyingReg =
      ({ grabbingPlayer with
         grabbedEnemyIndex := -1
         state := EntityState.idle }, dyingReg) ∧
    (grabRefresh grabbingPlayer
      (RemoveDeadEnemy dyingReg
        grabbingPlayer.grabbedEnemyIndex).1).1.grabbedEnemyIndex = -1 := by
  have hg : grabbingPlayer.grabbedEnemyIndex ≠ -1 := by
    norm_num [grabbingPlayer, samplePlayer, zeroEntity]
  have hbad : ¬(0 ≤ grabbingPlayer.grabbedEnemyIndex ∧
      grabbingPlayer.grabbedEnemyIndex < (dyingReg.activeEnemies : Int) ∧
      0 < (regGet dyingReg grabbingPlayer.grabbedEnemyIndex.toNat).health) := by
    norm_num [grabbingPlayer, samplePlayer, zeroEntity, dyingReg, regGet,
      dyingEnemy, sampleEnemy]
  have hlast : grabbingPlayer.grabbedEnemyIndex =
      (dyingReg.activeEnemies : Int) - 1 := by
    norm_num [grabbingPlayer, samplePlayer, zeroEntity, dyingReg]
  exact ⟨hg, hbad, hlast,
    (c6_grab_reference_revalidation grabbingPlayer dyingReg hg).1 hbad,
    ((c6_grab_reference_revalidation grabbingPlayer dyingReg hg).2 hlast).1⟩

theorem aliveCount_fold (re : Registry) (l : List Nat) : ∀ n : Int,
    l.foldl (fun alive j =>
      if 0 < (regGet re j).health ∧ (regGet re j).deathTimer ≤ 0 then alive + 1
      else alive) n =
    n + (l.countP (fun j =>
      decide (0 < (regGet re j).health ∧ (regGet re j).deathTimer ≤ 0)) : Int)
    := by
  induction l with
  | nil => intro n; simp
  | cons x xs ih =>
    intro n
    rw [List.foldl_cons, List.countP_cons, ih]
    by_cases hx : 0 < (regGet re x).health ∧ (regGet re x).deathTimer ≤ 0
    · rw [if_pos hx]
      simp [hx]
      push_cast
      ring
    · rw [if_neg hx]
      simp [hx]

/-- C10: `GetAliveEnemiesCount` counts exactly the active-prefix
entries with positive health and no running death timer; consequently a
dying enemy (health 0, death timer counting down, still stored) is
excluded, and `LevelIsCleared` reports the stage cleared while that
dying enemy is still present in the registry. -/
theorem c10_alive_count_excludes_dying :
    (∀ re : Registry, GetAliveEnemiesCount re =
      ((List.range re.activeEnemies).countP (fun j =>
        decide (0 < (regGet re j).health ∧ (regGet re j).deathTimer ≤ 0))
        : Int)) ∧
    GetAliveEnemiesCount dyingReg = 0 ∧
    dyingReg.activeEnemies = 1 ∧
    (regGet dyingReg 0).health = 0 ∧
    0 < (regGet dyingReg 0).deathTimer ∧
    LevelIsCleared ⟨false, false, false, 0⟩ dyingReg := by
  have hrange1 : List.range 1 = [0] := by decide
  have hcnt : GetAliveEnemiesCount dyingReg = 0 := by
    unfold GetAliveEnemiesCount
    norm_num [hrange1, regGet, dyingReg, dyingEnemy, sampleEnemy, zeroEntity]
  refine ⟨fun re => by
    unfold GetAliveEnemiesCount
    rw [aliveCount_fold]
    ring, hcnt, rfl, ?_, ?_, ?_⟩
  · norm_num [regGet, dyingReg, dyingEnemy, sampleEnemy, zeroEntity]
  · norm_num [regGet, dyingReg, dyingEnemy, sampleEnemy, zeroEntity]
  · refine ⟨by simp, by norm_num, hcnt, by simp [LevelHasActiveBoss]⟩

/-- One selection step leaves the accumulator unchanged when the player
is dead or no closer than the accumulator's distance. -/
theorem selectTargetStep_id (e p : Entity) (acc : Option Entity × ℚ)
    (h : p.health ≤ 0 ∨ acc.2 ≤ |p.position.x - e.position.x|) :
    selectTargetStep e acc p = acc := by
  unfold selectTargetStep
  rcases h with h | h
  · rw [if_pos h]
  · by_cases hh : p.health ≤ 0
    · rw [if_pos hh]
    · rw [if_neg hh]
      show (if |p.position.x - e.position.x| < acc.2 then
        ((some p : Option Entity), |p.position.x - e.position.x|) else acc) = acc
      rw [if_neg (not_lt.mpr h)]

/-- Target selection finds nobody when every player is dead or at least
the base threshold `ENEMY_SIGHT_DIST + 1` away, whatever the enemy's
(possibly boss-enlarged) sight distance is. -/
theorem selectTarget_none (e : Entity) (players : List Entity)
    (h : ∀ p ∈ players, p.health ≤ 0 ∨
      ENEMY_SIGHT_DIST + 1 ≤ |p.position.x - e.position.x|) :
    selectTarget e players = (none, ENEMY_SIGHT_DIST + 1) := by
  unfold selectTarget
  revert h
  induction players with
  | nil => intro _; rfl
  | cons p ps ih =>
    intro h
    rw [List.foldl_cons,
      selectTargetStep_id e p (none, ENEMY_SIGHT_DIST + 1)
        (h p (List.mem_cons_self p ps))]
    exact ih (fun q hq => h q (List.mem_cons_of_mem p hq))

/-- C8 counterexample: the boss tuning is keyed on CURRENT health, not
on capacity, and target acquisition is capped at the base threshold.  A
capacity-160 boss with 40 health gets the standard parameter block and
chases at the full standard positioning speed; a full-health boss with a
living player 220 px away (inside its enlarged 240 px sight range) never
acquires it and drops to Idle with zero velocity. -/
theorem c8_boss_tuning_counterexample :
    (ENEMY_MAX_HEALTH < bossLowHealth.maxHealth ∧
     bossLowHealth.health ≤ ENEMY_MAX_HEALTH ∧
     enemyAIParams bossLowHealth =
       ⟨ENEMY_SIGHT_DIST, ENEMY_ATTACK_RANGE, ENEMY_CHASE_SPEED,
        ENEMY_POSITION_SPEED, ENEMY_RETREAT_SPEED⟩ ∧
     (ProcessEnemyAI bossLowHealth [nearPlayer] (1/60) (1/2) (1/2)).aiState
       = AI_STATE_CHASE ∧
     (ProcessEnemyAI bossLowHealth [nearPlayer] (1/60) (1/2) (1/2)).velocity.x
       = ENEMY_POSITION_SPEED) ∧
    (ENEMY_MAX_HEALTH < fullBoss.maxHealth ∧
     ENEMY_MAX_HEALTH < fullBoss.health ∧
     0 < farPlayer.health ∧
     |farPlayer.position.x - fullBoss.position.x|
       ≤ (enemyAIParams fullBoss).sightDist ∧
     (ProcessEnemyAI fullBoss [farPlayer] (1/60) (1/2) (1/2)).aiState
       = AI_STATE_IDLE ∧
     (ProcessEnemyAI fullBoss [farPlayer] (1/60) (1/2) (1/2)).velocity.x
       = 0) := by
  constructor
  · refine ⟨by norm_num [bossLowHealth, zeroEntity, ENEMY_MAX_HEALTH],
      by norm_num [bossLowHealth, zeroEntity, ENEMY_MAX_HEALTH], ?_, ?_, ?_⟩
    · norm_num [enemyAIParams, bossLowHealth, zeroEntity, ENEMY_MAX_HEALTH]
    · norm_num [ProcessEnemyAI, selectTarget, selectTargetStep,
        enemyAIParams, enemyAIPre, enemyFaceStep, enemyAITimerStep,
        enemyRetreatForce, enemyAttackFlagReset, enemyVelXZero, enemyAISwitch, bossLowHealth, nearPlayer,
        samplePlayer, zeroEntity, ENEMY_MAX_HEALTH, ENEMY_SIGHT_DIST,
        ENEMY_ATTACK_RANGE, ENEMY_POSITION_SPEED, ENEMY_CHASE_SPEED,
        AI_STATE_IDLE, AI_STATE_CHASE, AI_STATE_POSITION, AI_STATE_ATTACK,
        AI_STATE_RETREAT, AI_STATE_EVADE]
    · norm_num [ProcessEnemyAI, selectTarget, selectTargetStep,
        enemyAIParams, enemyAIPre, enemyFaceStep, enemyAITimerStep,
        enemyRetreatForce, enemyAttackFlagReset, enemyVelXZero, enemyAISwitch, bossLowHealth, nearPlayer,
        samplePlayer, zeroEntity, ENEMY_MAX_HEALTH, ENEMY_SIGHT_DIST,
        ENEMY_ATTACK_RANGE, ENEMY_POSITION_SPEED, ENEMY_CHASE_SPEED,
        AI_STATE_IDLE, AI_STATE_CHASE, AI_STATE_POSITION, AI_STATE_ATTACK,
        AI_STATE_RETREAT, AI_STATE_EVADE]
  · refine ⟨by norm_num [fullBoss, zeroEntity, ENEMY_MAX_HEALTH],
      by norm_num [fullBoss, zeroEntity, ENEMY_MAX_HEALTH],
      by norm_num [farPlayer, samplePlayer, zeroEntity], ?_, ?_, ?_⟩
    · norm_num [enemyAIParams, fullBoss, farPlayer, samplePlayer, zeroEntity,
        ENEMY_MAX_HEALTH, ENEMY_SIGHT_DIST]
    · norm_num [ProcessEnemyAI, selectTarget, selectTargetStep,
        fullBoss, farPlayer, samplePlayer, zeroEntity, ENEMY_SIGHT_DIST,
        AI_STATE_IDLE]
    · norm_num [ProcessEnemyAI, selectTarget, selectTargetStep,
        fullBoss, farPlayer, samplePlayer, zeroEntity, ENEMY_SIGHT_DIST,
        AI_STATE_IDLE]

/-- C8 (amended): an enemy whose CURRENT health exceeds the standard
enemy maximum gets the tuned AI parameter block — strictly larger sight
distance and attack range and strictly slower chase, position, and
retreat speeds than the standard block; however, target acquisition is
capped at the base threshold `ENEMY_SIGHT_DIST + 1` for every enemy:
whenever all players are dead or at least that far away, the enemy
(boss or not) acquires no target and is forced to Idle with zero
horizontal velocity. -/
theorem c8_boss_tuning_and_sight_cap :
    (∀ e : Entity, ENEMY_MAX_HEALTH < e.health →
      enemyAIParams e =
        ⟨ENEMY_SIGHT_DIST * (12/10), ENEMY_ATTACK_RANGE * (3/2),
         ENEMY_CHASE_SPEED * (7/10), ENEMY_POSITION_SPEED * (7/10),
         ENEMY_RETREAT_SPEED * (8/10)⟩ ∧
      ENEMY_SIGHT_DIST < (enemyAIParams e).sightDist ∧
      ENEMY_ATTACK_RANGE < (enemyAIParams e).attackRange ∧
      (enemyAIParams e).chaseSpeed < ENEMY_CHASE_SPEED ∧
      (enemyAIParams e).positionSpeed < ENEMY_POSITION_SPEED ∧
      (enemyAIParams e).retreatSpeed < ENEMY_RETREAT_SPEED) ∧
    (∀ (e : Entity) (players : List Entity) (dt profileRoll evadeRoll : ℚ),
      players ≠ [] →
      (∀ p ∈ players, p.health ≤ 0 ∨
        ENEMY_SIGHT_DIST + 1 ≤ |p.position.x - e.position.x|) →
      (ProcessEnemyAI e players dt profileRoll evadeRoll).aiState
          = AI_STATE_IDLE ∧
      (ProcessEnemyAI e players dt profileRoll evadeRoll).state
          = EntityState.idle ∧
      (ProcessEnemyAI e players dt profileRoll evadeRoll).velocity.x = 0) := by
  constructor
  · intro e he
    have hp : enemyAIParams e =
        ⟨ENEMY_SIGHT_DIST * (12/10), ENEMY_ATTACK_RANGE * (3/2),
         ENEMY_CHASE_SPEED * (7/10), ENEMY_POSITION_SPEED * (7/10),
         ENEMY_RETREAT_SPEED * (8/10)⟩ := by
      unfold enemyAIParams
      rw [if_pos he]
    refine ⟨hp, ?_, ?_, ?_, ?_, ?_⟩ <;>
      rw [hp] <;>
      norm_num [ENEMY_SIGHT_DIST, ENEMY_ATTACK_RANGE, ENEMY_CHASE_SPEED,
        ENEMY_POSITION_SPEED, ENEMY_RETREAT_SPEED]
  · intro e players dt profileRoll evadeRoll hne h
    unfold ProcessEnemyAI
    rw [if_neg hne, selectTarget_none e players h]
    exact ⟨rfl, rfl, rfl⟩

/-- C8 witness: the full-health boss gets the tuned block, and with the
only player 220 px away (dead-or-distant hypothesis satisfied) it ends
Idle with zero horizontal velocity. -/
theorem c8_boss_tuning_and_sight_cap_witness :
    (ENEMY_MAX_HEALTH < fullBoss.health ∧
     ENEMY_SIGHT_DIST < (enemyAIParams fullBoss).sightDist ∧
     (enemyAIParams fullBoss).chaseSpeed < ENEMY_CHASE_SPEED) ∧
    (([farPlayer] : List Entity) ≠ [] ∧
     (∀ p ∈ [farPlayer], p.health ≤ 0 ∨
       ENEMY_SIGHT_DIST + 1 ≤ |p.position.x - fullBoss.position.x|) ∧
     (ProcessEnemyAI fullBoss [farPlayer] (1/60) 0 0).aiState
       = AI_STATE_IDLE ∧
     (ProcessEnemyAI fullBoss [farPlayer] (1/60) 0 0).velocity.x = 0) := by
  have hh : ENEMY_MAX_HEALTH < fullBoss.health := by
    norm_num [fullBoss, zeroEntity, ENEMY_MAX_HEALTH]
  have hne : ([farPlayer] : List Entity) ≠ [] := by simp
  have hfar : ∀ p ∈ [farPlayer], p.health ≤ 0 ∨
      ENEMY_SIGHT_DIST + 1 ≤ |p.position.x - fullBoss.position.x| := by
    intro p hp
    rw [List.mem_singleton] at hp
    subst hp
    right
    norm_num [farPlayer, fullBoss, samplePlayer, zeroEntity, ENEMY_SIGHT_DIST]
  have ha := (c8_boss_tuning_and_sight_cap.1 fullBoss hh).2
  have hb := c8_boss_tuning_and_sight_cap.2 fullBoss [farPlayer] (1/60) 0 0
    hne hfar
  exact ⟨⟨hh, ha.1, ha.2.2.1⟩, hne, hfar, hb.1, hb.2.2⟩

/-! Field-preservation facts for the stages of `UpdatePlayer`: which
stages leave `stunTimer` and `attackCooldown` untouched. -/

theorem playerStateTimerTick_stunTimer (p : Entity) (dt : ℚ) :
    (playerStateTimerTick p dt).stunTimer = p.stunTimer := rfl

theorem playerStateTimerTick_cooldown (p : Entity) (dt : ℚ) :
    (playerStateTimerTick p dt).attackCooldown = p.attackCooldown := rfl

theorem playerStunStep_stunTimer (p : Entity) (dt : ℚ) :
    (playerStunStep p dt).stunTimer =
      if 0 < p.stunTimer then p.stunTimer - dt else p.stunTimer := by
  simp only [playerStunStep]
  repeat' split
  all_goals rfl

theorem playerStunStep_cooldown (p : Entity) (dt : ℚ) :
    (playerStunStep p dt).attackCooldown = p.attackCooldown := by
  simp only [playerStunStep]
  repeat' split
  all_goals rfl

theorem UpdatePlayerDeath_stunTimer (p : Entity) (dt : ℚ) :
    (UpdatePlayerDeath p dt).stunTimer = p.stunTimer := by
  simp only [UpdatePlayerDeath]
  repeat' split
  all_goals rfl

theorem UpdatePlayerDeath_cooldown (p : Entity) (dt : ℚ) :
    (UpdatePlayerDeath p dt).attackCooldown = p.attackCooldown := by
  simp only [UpdatePlayerDeath]
  repeat' split
  all_goals rfl

theorem playerJumpStep_stunTimer (p : Entity) (inp : Input) :
    (playerJumpStep p inp).stunTimer = p.stunTimer := by
  simp only [playerJumpStep]
  repeat' split
  all_goals rfl

theorem playerJumpStep_cooldown (p : Entity) (inp : Input) :
    (playerJumpStep p inp).attackCooldown = p.attackCooldown := by
  simp only [playerJumpStep]
  repeat' split
  all_goals rfl

theorem playerMoveStep_fst_stunTimer (p : Entity) (inp : Input) :
    (playerMoveStep p inp).1.stunTimer = p.stunTimer := by
  simp only [playerMoveStep]
  repeat' split
  all_goals rfl

theorem playerMoveStep_fst_cooldown (p : Entity) (inp : Input) :
    (playerMoveStep p inp).1.attackCooldown = p.attackCooldown := by
  simp only [playerMoveStep]
  repeat' split
  all_goals rfl

theorem StartPlayerAttack_stunTimer (p : Entity) (prof : AttackProfile) :
    (StartPlayerAttack p prof).stunTimer = p.stunTimer := rfl

theorem StartAirAttack_stunTimer (p : Entity) (a d : Int) (c : ℚ) :
    (StartAirAttack p a d c).stunTimer = p.stunTimer := rfl

theorem playerAttackStartStep_stunTimer (p : Entity) (inp : Input) :
    (playerAttackStartStep p inp).stunTimer = p.stunTimer := by
  simp only [playerAttackStartStep, StartPlayerAttack, StartAirAttack]
  repeat' split
  all_goals rfl

theorem playerAttackStartStep_cooldown_nonneg (p : Entity) (inp : Input)
    (h : 0 ≤ p.attackCooldown) :
    0 ≤ (playerAttackStartStep p inp).attackCooldown := by
  simp only [playerAttackStartStep, StartPlayerAttack, StartAirAttack,
    PLAYER_ATTACK_JAB_PROFILE, PLAYER_ATTACK_PUNCH_PROFILE,
    PLAYER_ATTACK_KICK_PROFILE]
  repeat' split
  all_goals first | exact h | norm_num

theorem playerGrabStart_fst_stunTimer (p : Entity) (r : Registry) :
    (playerGrabStart p r).1.stunTimer = p.stunTimer := by
  simp only [playerGrabStart]
  repeat' split
  all_goals rfl

theorem playerGrabStart_fst_cooldown (p : Entity) (r : Registry) :
    (playerGrabStart p r).1.attackCooldown = p.attackCooldown := by
  simp only [playerGrabStart]
  repeat' split
  all_goals rfl

theorem playerGrabRelease_fst_stunTimer (p : Entity) (r : Registry) :
    (playerGrabRelease p r).1.stunTimer = p.stunTimer := rfl

theorem playerGrabRelease_fst_cooldown (p : Entity) (r : Registry) :
    (playerGrabRelease p r).1.attackCooldown = p.attackCooldown := rfl

theorem playerGrabPhase_fst_stunTimer (p : Entity) (r : Registry)
    (inp : Input) :
    (playerGrabPhase p r inp).1.stunTimer = p.stunTimer := by
  simp only [playerGrabPhase]
  repeat' split
  all_goals first
    | rfl
    | rw [playerGrabRelease_fst_stunTimer, playerGrabStart_fst_stunTimer]
    | rw [playerGrabRelease_fst_stunTimer]
    | rw [playerGrabStart_fst_stunTimer]

theorem playerGrabPhase_fst_cooldown (p : Entity) (r : Registry)
    (inp : Input) :
    (playerGrabPhase p r inp).1.attackCooldown = p.attackCooldown := by
  simp only [playerGrabPhase]
  repeat' split
  all_goals first
    | rfl
    | rw [playerGrabRelease_fst_cooldown, playerGrabStart_fst_cooldown]
    | rw [playerGrabRelease_fst_cooldown]
    | rw [playerGrabStart_fst_cooldown]

theorem playerControl_fst_stunTimer (p : Entity) (r : Registry)
    (inp : Input) :
    (playerControl p r inp).1.stunTimer = p.stunTimer := by
  simp only [playerControl]
  rw [playerGrabPhase_fst_stunTimer, playerAttackStartStep_stunTimer,
    playerMoveStep_fst_stunTimer, playerJumpStep_stunTimer]

theorem playerControl_fst_cooldown_nonneg (p : Entity) (r : Registry)
    (inp : Input) (h : 0 ≤ p.attackCooldown) :
    0 ≤ (playerControl p r inp).1.attackCooldown := by
  simp only [playerControl]
  rw [playerGrabPhase_fst_cooldown]
  apply playerAttackStartStep_cooldown_nonneg
  rw [playerMoveStep_fst_cooldown, playerJumpStep_cooldown]
  exact h

theorem idleDebounce_stunTimer (p : Entity) (m : Bool) (dt : ℚ) :
    (idleDebounce p m dt).stunTimer = p.stunTimer := by
  simp only [idleDebounce]
  repeat' split
  all_goals rfl

theorem idleDebounce_cooldown (p : Entity) (m : Bool) (dt : ℚ) :
    (idleDebounce p m dt).attackCooldown = p.attackCooldown := by
  simp only [idleDebounce]
  repeat' split
  all_goals rfl

theorem processPlayerHitDetectionReg_fst_stunTimer (p : Entity)
    (r : Registry) :
    (processPlayerHitDetectionReg p r).1.stunTimer = p.stunTimer := by
  simp only [processPlayerHitDetectionReg]
  repeat' split
  all_goals rfl

theorem processPlayerHitDetectionReg_fst_cooldown (p : Entity)
    (r : Registry) :
    (processPlayerHitDetectionReg p r).1.attackCooldown = p.attackCooldown := by
  simp only [processPlayerHitDetectionReg]
  repeat' split
  all_goals rfl

theorem ProcessPlayerInput_fst_stunTimer (p : Entity) (r : Registry)
    (inp : Input) (dt : ℚ) :
    (ProcessPlayerInput p r inp dt).1.stunTimer = p.stunTimer := by
  simp only [ProcessPlayerInput]
  rw [processPlayerHitDetectionReg_fst_stunTimer, idleDebounce_stunTimer]
  split
  · rw [playerControl_fst_stunTimer]
  · rfl

theorem ProcessPlayerInput_fst_cooldown_nonneg (p : Entity) (r : Registry)
    (inp : Input) (dt : ℚ) (h : 0 ≤ p.attackCooldown) :
    0 ≤ (ProcessPlayerInput p r inp dt).1.attackCooldown := by
  simp only [ProcessPlayerInput]
  rw [processPlayerHitDetectionReg_fst_cooldown, idleDebounce_cooldown]
  split
  · exact playerControl_fst_cooldown_nonneg p r inp h
  · exact h

theorem ApplyFriction_stunTimer (e : Entity) (s : ℚ) :
    (ApplyFriction e s).stunTimer = e.stunTimer := by
  simp only [ApplyFriction]
  repeat' split
  all_goals rfl

theorem ApplyFriction_cooldown (e : Entity) (s : ℚ) :
    (ApplyFriction e s).attackCooldown = e.attackCooldown := by
  simp only [ApplyFriction]
  repeat' split
  all_goals rfl

theorem UpdatePhysics_entity_stunTimer (l : Level) (e : Entity) (dt : ℚ) :
    (UpdatePhysics l e dt).entity.stunTimer = e.stunTimer := rfl

theorem UpdatePhysics_entity_cooldown (l : Level) (e : Entity) (dt : ℚ) :
    (UpdatePhysics l e dt).entity.attackCooldown = e.attackCooldown := rfl

theorem playerLandingReset_stunTimer (w : Bool) (p : Entity) :
    (playerLandingReset w p).stunTimer = p.stunTimer := by
  simp only [playerLandingReset]
  repeat' split
  all_goals rfl

theorem playerLandingReset_cooldown (w : Bool) (p : Entity) :
    (playerLandingReset w p).attackCooldown = p.attackCooldown := by
  simp only [playerLandingReset]
  repeat' split
  all_goals rfl

theorem playerMovePhase_fst_stunTimer (p : Entity) (r : Registry)
    (inp : Input) (l : Level) (dt : ℚ) :
    (playerMovePhase p r inp l dt).1.stunTimer = p.stunTimer := by
  simp only [playerMovePhase]
  rw [playerLandingReset_stunTimer, UpdatePhysics_entity_stunTimer,
    ApplyFriction_stunTimer, ProcessPlayerInput_fst_stunTimer]

theorem playerMovePhase_fst_cooldown_nonneg (p : Entity) (r : Registry)
    (inp : Input) (l : Level) (dt : ℚ) (h : 0 ≤ p.attackCooldown) :
    0 ≤ (playerMovePhase p r inp l dt).1.attackCooldown := by
  simp only [playerMovePhase]
  rw [playerLandingReset_cooldown, UpdatePhysics_entity_cooldown,
    ApplyFriction_cooldown]
  exact ProcessPlayerInput_fst_cooldown_nonneg p r inp dt h

theorem playerCooldownStep_stunTimer (p : Entity) (dt : ℚ) :
    (playerCooldownStep p dt).stunTimer = p.stunTimer := by
  simp only [playerCooldownStep]
  repeat' split
  all_goals rfl

theorem playerCooldownStep_cooldown_nonneg (p : Entity) (dt : ℚ)
    (h : 0 ≤ p.attackCooldown) :
    0 ≤ (playerCooldownStep p dt).attackCooldown := by
  simp only [playerCooldownStep]
  repeat' split
  all_goals first | exact h | (dsimp only; linarith)

theorem playerAnimChangeStep_stunTimer (a : PlayerAssets) (p : Entity) :
    (playerAnimChangeStep a p).stunTimer = p.stunTimer := by
  simp only [playerAnimChangeStep]
  repeat' split
  all_goals rfl

theorem playerAnimChangeStep_cooldown (a : PlayerAssets) (p : Entity) :
    (playerAnimChangeStep a p).attackCooldown = p.attackCooldown := by
  simp only [playerAnimChangeStep]
  repeat' split
  all_goals rfl

theorem playerAnimTick_stunTimer (p : Entity) (dt : ℚ) :
    (playerAnimTick p dt).stunTimer = p.stunTimer := rfl

theorem playerAnimTick_cooldown (p : Entity) (dt : ℚ) :
    (playerAnimTick p dt).attackCooldown = p.attackCooldown := rfl

theorem playerAttackEndStep_stunTimer (p : Entity) (dt : ℚ) :
    (playerAttackEndStep p dt).stunTimer = p.stunTimer := by
  simp only [playerAttackEndStep]
  repeat' split
  all_goals rfl

theorem playerAttackEndStep_cooldown (p : Entity) (dt : ℚ) :
    (playerAttackEndStep p dt).attackCooldown = p.attackCooldown := by
  simp only [playerAttackEndStep]
  repeat' split
  all_goals rfl

theorem playerDeathTrigger_stunTimer (p : Entity) :
    (playerDeathTrigger p).stunTimer = p.stunTimer := by
  simp only [playerDeathTrigger]
  repeat' split
  all_goals rfl

theorem playerDeathTrigger_cooldown (p : Entity) :
    (playerDeathTrigger p).attackCooldown = p.attackCooldown := by
  simp only [playerDeathTrigger]
  repeat' split
  all_goals rfl

theorem playerDeathPinIf_stunTimer (b : Bool) (p : Entity) :
    (playerDeathPinIf b p).stunTimer = p.stunTimer := by
  simp only [playerDeathPinIf, playerDeathPin]
  repeat' split
  all_goals rfl

theorem playerDeathPinIf_cooldown (b : Bool) (p : Entity) :
    (playerDeathPinIf b p).attackCooldown = p.attackCooldown := by
  simp only [playerDeathPinIf, playerDeathPin]
  repeat' split
  all_goals rfl

theorem playerStateResetIf_stunTimer (s : EntityState) (p : Entity) :
    (playerStateResetIf s p).stunTimer = p.stunTimer := by
  simp only [playerStateResetIf]
  repeat' split
  all_goals rfl

theorem playerStateResetIf_cooldown (s : EntityState) (p : Entity) :
    (playerStateResetIf s p).attackCooldown = p.attackCooldown := by
  simp only [playerStateResetIf]
  repeat' split
  all_goals rfl

theorem grabRefresh_fst_stunTimer (p : Entity) (r : Registry) :
    (grabRefresh p r).1.stunTimer = p.stunTimer := by
  simp only [grabRefresh]
  repeat' split
  all_goals rfl

theorem grabRefresh_fst_cooldown (p : Entity) (r : Registry) :
    (grabRefresh p r).1.attackCooldown = p.attackCooldown := by
  simp only [grabRefresh]
  repeat' split
  all_goals rfl

/-- The whole player tick changes `stunTimer` only in the stun countdown
at its start: one unclamped decrement while the stun is running. -/
theorem updatePlayer_fst_stunTimer (p : Entity) (r : Registry)
    (inp : Input) (assets : PlayerAssets) (l : Level) (dt : ℚ) :
    (UpdatePlayer p r inp assets l dt).1.stunTimer =
      if 0 < p.stunTimer then p.stunTimer - dt else p.stunTimer := by
  simp only [UpdatePlayer]
  rw [grabRefresh_fst_stunTimer, playerStateResetIf_stunTimer,
    playerDeathPinIf_stunTimer, playerDeathTrigger_stunTimer,
    playerAttackEndStep_stunTimer, playerAnimTick_stunTimer,
    playerAnimChangeStep_stunTimer, playerCooldownStep_stunTimer]
  rw [show (if 0 < p.stunTimer then p.stunTimer - dt else p.stunTimer) =
      (playerStunStep (playerStateTimerTick p dt) dt).stunTimer by
    rw [playerStunStep_stunTimer, playerStateTimerTick_stunTimer]]
  split
  · exact UpdatePlayerDeath_stunTimer _ _
  · exact playerMovePhase_fst_stunTimer _ _ _ _ _

/-- The player's attack cooldown never becomes negative in one tick. -/
theorem updatePlayer_cooldown_nonneg (p : Entity) (r : Registry)
    (inp : Input) (assets : PlayerAssets) (l : Level) (dt : ℚ)
    (h : 0 ≤ p.attackCooldown) :
    0 ≤ (UpdatePlayer p r inp assets l dt).1.attackCooldown := by
  simp only [UpdatePlayer]
  rw [grabRefresh_fst_cooldown, playerStateResetIf_cooldown,
    playerDeathPinIf_cooldown, playerDeathTrigger_cooldown,
    playerAttackEndStep_cooldown, playerAnimTick_cooldown,
    playerAnimChangeStep_cooldown]
  apply playerCooldownStep_cooldown_nonneg
  have h1 : 0 ≤ (playerStunStep (playerStateTimerTick p dt) dt).attackCooldown := by
    rw [playerStunStep_cooldown, playerStateTimerTick_cooldown]
    exact h
  split
  · rw [show ((UpdatePlayerDeath (playerStunStep (playerStateTimerTick p dt) dt)
        dt, r) : Entity × Registry).1.attackCooldown =
        (playerStunStep (playerStateTimerTick p dt) dt).attackCooldown from
      UpdatePlayerDeath_cooldown _ _]
    exact h1
  · exact playerMovePhase_fst_cooldown_nonneg _ _ _ _ _ h1

theorem enemyCooldownStep_timers (e : Entity) (dt : ℚ)
    (h : TimersNonneg e) : TimersNonneg (enemyCooldownStep e dt) := by
  obtain ⟨h1, h2, h3⟩ := h
  simp only [enemyCooldownStep, TimersNonneg]
  repeat' split
  all_goals try dsimp only
  all_goals first
    | exact ⟨h1, le_rfl, h3⟩
    | exact ⟨h1, by linarith, h3⟩

theorem enemyStateTimerTick_timers (e : Entity) (dt : ℚ)
    (h : TimersNonneg e) : TimersNonneg (enemyStateTimerTick e dt) := h

theorem enemyStunStep_fst_timers (e : Entity) (dt : ℚ)
    (h : TimersNonneg e) : TimersNonneg (enemyStunStep e dt).1 := by
  obtain ⟨h1, h2, h3⟩ := h
  simp only [enemyStunStep, TimersNonneg]
  repeat' split
  all_goals try dsimp only
  all_goals first
    | exact ⟨le_rfl, h2, h3⟩
    | exact ⟨by linarith, h2, h3⟩

theorem enemyGrabHold_timers (e : Entity) (h : TimersNonneg e) :
    TimersNonneg (enemyGrabHold e) := h

theorem enemyFaceStep_timers (e : Entity) (d : ℚ) (h : TimersNonneg e) :
    TimersNonneg (enemyFaceStep e d) := h

theorem enemyAITimerStep_timers (e : Entity) (dt : ℚ)
    (h : TimersNonneg e) : TimersNonneg (enemyAITimerStep e dt) := by
  obtain ⟨h1, h2, h3⟩ := h
  simp only [enemyAITimerStep, TimersNonneg]
  repeat' split
  all_goals try dsimp only
  all_goals first
    | exact ⟨h1, h2, le_rfl⟩
    | exact ⟨h1, h2, by linarith⟩

theorem enemyRetreatForce_timers (e : Entity) (h : TimersNonneg e) :
    TimersNonneg (enemyRetreatForce e) := by
  obtain ⟨h1, h2, h3⟩ := h
  simp only [enemyRetreatForce, TimersNonneg]
  repeat' split
  all_goals try dsimp only
  all_goals first
    | exact ⟨h1, h2, h3⟩
    | exact ⟨h1, h2, by norm_num [ENEMY_RETREAT_TIME]⟩

theorem enemyAttackFlagReset_timers (e : Entity) (h : TimersNonneg e) :
    TimersNonneg (enemyAttackFlagReset e) := by
  simp only [enemyAttackFlagReset, TimersNonneg]
  repeat' split
  all_goals exact ⟨h.1, h.2.1, h.2.2⟩

theorem enemyVelXZero_timers (e : Entity) (h : TimersNonneg e) :
    TimersNonneg (enemyVelXZero e) := h

theorem enemyAIPre_timers (e : Entity) (d dt : ℚ) (h : TimersNonneg e) :
    TimersNonneg (enemyAIPre e d dt) :=
  enemyVelXZero_timers _
    (enemyAttackFlagReset_timers _
      (enemyRetreatForce_timers _
        (enemyAITimerStep_timers _ _ (enemyFaceStep_timers _ _ h))))

theorem enemyAISwitch_timers (e5 tp : Entity) (dist dir : ℚ)
    (prms : AIParams) (pr er : ℚ) (h : TimersNonneg e5) :
    TimersNonneg (enemyAISwitch e5 tp dist dir prms pr er) := by
  obtain ⟨h1, h2, h3⟩ := h
  simp only [enemyAISwitch, StartEnemyAttack, chooseEnemyProfile,
    positionEvadeCheck, ENEMY_ATTACK_KICK_PROFILE,
    ENEMY_ATTACK_PUNCH_PROFILE, TimersNonneg]
  repeat' split
  all_goals refine ⟨h1, ?_, ?_⟩
  all_goals first | exact h2 | exact h3 | norm_num

theorem ProcessEnemyAI_timers (e : Entity) (players : List Entity)
    (dt pr er : ℚ) (h : TimersNonneg e) :
    TimersNonneg (ProcessEnemyAI e players dt pr er) := by
  unfold ProcessEnemyAI
  split
  · exact ⟨h.1, h.2.1, h.2.2⟩
  · split
    · exact ⟨h.1, h.2.1, h.2.2⟩
    · apply enemyAISwitch_timers
      apply enemyAIPre_timers
      exact h

theorem enemyAIPhase_timers (skipAI : Bool) (e : Entity)
    (players : List Entity) (dt pr er : ℚ) (h : TimersNonneg e) :
    TimersNonneg (enemyAIPhase skipAI e players dt pr er) := by
  simp only [enemyAIPhase]
  repeat' split
  all_goals first
    | exact ⟨h.1, h.2.1, h.2.2⟩
    | exact ProcessEnemyAI_timers e players dt pr er h

theorem ApplyFriction_timers (e : Entity) (s : ℚ) (h : TimersNonneg e) :
    TimersNonneg (ApplyFriction e s) := by
  simp only [ApplyFriction]
  repeat' split
  all_goals exact ⟨h.1, h.2.1, h.2.2⟩

theorem enemyFrictionStep_timers (e : Entity) (h : TimersNonneg e) :
    TimersNonneg (enemyFrictionStep e) := by
  simp only [enemyFrictionStep]
  repeat' split
  all_goals first
    | exact ApplyFriction_timers _ _ h
    | exact ⟨h.1, h.2.1, h.2.2⟩

theorem enemyAnimChangeStep_timers (assets : EnemyAssets) (e : Entity)
    (h : TimersNonneg e) : TimersNonneg (enemyAnimChangeStep assets e) := by
  simp only [enemyAnimChangeStep, UpdateEnemyAnimationFrames]
  repeat' split
  all_goals exact ⟨h.1, h.2.1, h.2.2⟩

theorem enemyPhysStep_timers (l : Level) (e : Entity) (dt : ℚ)
    (h : TimersNonneg e) : TimersNonneg (enemyPhysStep l e dt) := h

theorem enemyAnimTick_timers (e : Entity) (dt : ℚ) (h : TimersNonneg e) :
    TimersNonneg (enemyAnimTick e dt) := h

theorem ProcessEnemyAttack_fst_timers (e : Entity) (players : List Entity)
    (n : Int) (h : TimersNonneg e) :
    TimersNonneg (ProcessEnemyAttack e players n).1 := by
  simp only [ProcessEnemyAttack]
  repeat' split
  all_goals exact ⟨h.1, h.2.1, h.2.2⟩

theorem enemyAttackSlowdown_timers (e : Entity) (h : TimersNonneg e) :
    TimersNonneg (enemyAttackSlowdown e) := by
  simp only [enemyAttackSlowdown]
  repeat' split
  all_goals exact ⟨h.1, h.2.1, h.2.2⟩

theorem enemyAttackComplete_timers (e : Entity) (dt : ℚ)
    (h : TimersNonneg e) : TimersNonneg (enemyAttackComplete e dt) := by
  simp only [enemyAttackComplete]
  repeat' split
  all_goals exact ⟨h.1, h.2.1, h.2.2⟩

/-- Whatever survives one enemy tick keeps nonnegative stun, cooldown,
and AI timers. -/
theorem updateEnemyStep_timers (e : Entity) (i : Int)
    (players : List Entity) (l : Level) (assets : EnemyAssets)
    (dt pr er : ℚ) (e' : Entity) (h : TimersNonneg e)
    (hs : (updateEnemyStep e i players l assets dt pr er).enemy = some e') :
    TimersNonneg e' := by
  simp only [updateEnemyStep] at hs
  split at hs
  · split at hs
    · exact Option.noConfusion hs
    · have h' := Option.some.inj hs
      subst h'
      exact ⟨h.1, h.2.1, h.2.2⟩
  · split at hs
    · have h' := Option.some.inj hs
      subst h'
      exact h
    · split at hs
      · have h' := Option.some.inj hs
        subst h'
        apply enemyGrabHold_timers
        apply enemyStunStep_fst_timers
        apply enemyStateTimerTick_timers
        apply enemyCooldownStep_timers
        exact h
      · have h' := Option.some.inj hs
        subst h'
        apply enemyAttackComplete_timers
        apply enemyAttackSlowdown_timers
        apply ProcessEnemyAttack_fst_timers
        apply enemyAnimTick_timers
        apply enemyPhysStep_timers
        apply enemyAnimChangeStep_timers
        apply enemyFrictionStep_timers
        apply enemyAIPhase_timers
        apply enemyStunStep_fst_timers
        apply enemyStateTimerTick_timers
        apply enemyCooldownStep_timers
        exact h

/-- C9 counterexample: the player stun countdown does NOT saturate at
zero.  A grounded hurt player with 0.01 s of stun left, updated with
dt = 1/60 s, ends the tick with stunTimer = -1/150 < 0: UpdatePlayer
subtracts dt without clamping and no later stage restores the timer. -/
theorem c9_player_stun_goes_negative_counterexample :
    0 < stunnedPlayer.stunTimer ∧
    (UpdatePlayer stunnedPlayer ClearEnemies noInput samplePlayerAssets
        plainLevel (1/60)).1.stunTimer < 0 := by
  constructor
  · norm_num [stunnedPlayer, zeroEntity]
  · rw [updatePlayer_fst_stunTimer]
    norm_num [stunnedPlayer, zeroEntity]

/-- C9 (amended): the zero-saturation holds for the timers whose
countdowns are written with a clamp — the player's attack cooldown
(never negative after a tick if nonnegative before), and the enemy's
stun, attack-cooldown, and AI timers (nonnegative after a surviving
enemy tick if nonnegative before) — but NOT for the player's stun
timer, whose decrement is unclamped (see the counterexample). -/
theorem c9_timer_saturation :
    (∀ (p : Entity) (r : Registry) (inp : Input) (assets : PlayerAssets)
        (l : Level) (dt : ℚ), 0 ≤ p.attackCooldown →
      0 ≤ (UpdatePlayer p r inp assets l dt).1.attackCooldown) ∧
    (∀ (e : Entity) (i : Int) (players : List Entity) (l : Level)
        (assets : EnemyAssets) (dt profileRoll evadeRoll : ℚ) (e' : Entity),
      0 ≤ e.stunTimer → 0 ≤ e.attackCooldown → 0 ≤ e.aiTimer →
      (updateEnemyStep e i players l assets dt profileRoll evadeRoll).enemy
        = some e' →
      0 ≤ e'.stunTimer ∧ 0 ≤ e'.attackCooldown ∧ 0 ≤ e'.aiTimer) := by
  constructor
  · exact fun p r inp assets l dt h =>
      updatePlayer_cooldown_nonneg p r inp assets l dt h
  · intro e i players l assets dt pr er e' h1 h2 h3 hs
    exact updateEnemyStep_timers e i players l assets dt pr er e'
      ⟨h1, h2, h3⟩ hs

/-- C9 witness: the stunned player has cooldown 0 and keeps it
nonnegative through a tick; the dying enemy survives its tick as
`dyingEnemyAfter` with all three timers still nonnegative. -/
theorem c9_timer_saturation_witness :
    (0 ≤ stunnedPlayer.attackCooldown ∧
     0 ≤ (UpdatePlayer stunnedPlayer ClearEnemies noInput samplePlayerAssets
        plainLevel (1/60)).1.attackCooldown) ∧
    (0 ≤ dyingEnemy.stunTimer ∧ 0 ≤ dyingEnemy.attackCooldown ∧
     0 ≤ dyingEnemy.aiTimer ∧
     (updateEnemyStep dyingEnemy 0 [] plainLevel sampleEnemyAssets (1/60) 0
        0).enemy = some dyingEnemyAfter ∧
     0 ≤ dyingEnemyAfter.stunTimer ∧ 0 ≤ dyingEnemyAfter.attackCooldown ∧
     0 ≤ dyingEnemyAfter.aiTimer) := by
  have hP : 0 ≤ stunnedPlayer.attackCooldown := by
    norm_num [stunnedPlayer, zeroEntity]
  have hE1 : 0 ≤ dyingEnemy.stunTimer := by
    norm_num [dyingEnemy, sampleEnemy, zeroEntity]
  have hE2 : 0 ≤ dyingEnemy.attackCooldown := by
    norm_num [dyingEnemy, sampleEnemy, zeroEntity]
  have hE3 : 0 ≤ dyingEnemy.aiTimer := by
    norm_num [dyingEnemy, sampleEnemy, zeroEntity]
  have hstep : (updateEnemyStep dyingEnemy 0 [] plainLevel sampleEnemyAssets
      (1/60) 0 0).enemy = some dyingEnemyAfter := by
    norm_num [updateEnemyStep, dyingEnemy, dyingEnemyAfter, sampleEnemy,
      zeroEntity, ANIM_HURT]
  have hc := (c9_timer_saturation.2 dyingEnemy 0 [] plainLevel
    sampleEnemyAssets (1/60) 0 0 dyingEnemyAfter hE1 hE2 hE3 hstep)
  exact ⟨⟨hP, c9_timer_saturation.1 stunnedPlayer ClearEnemies noInput
      samplePlayerAssets plainLevel (1/60) hP⟩,
    hE1, hE2, hE3, hstep, hc.1, hc.2.1, hc.2.2⟩

end DragonFight
